import Mathlib

/-!
# OpenAIRouter — verification of the provider-routing / translation subsystem

A shallow embedding, in Lean 4, of the routing, translation, validation,
rate-limiting, token-estimation and cost-accounting functions of the
OpenAIRouter gateway (TypeScript sources).  JavaScript numbers are modelled
as `ℚ` (idealised real arithmetic), JavaScript truthiness of optional
strings/numbers is modelled explicitly, and JavaScript objects used as
header maps are modelled as association lists with first-key-wins lookup.
-/

namespace OpenAIRouter

/-! ## JavaScript-style helpers -/

/-- Truthiness of an optional string (`undefined` and `""` are falsy). -/
def truthyStr (s : Option String) : Bool :=
  match s with
  | none => false
  | some v => v ≠ ""

/-- Truthiness of an optional number (`undefined` and `0` are falsy). -/
def truthyNum (v : Option ℚ) : Bool :=
  match v with
  | none => false
  | some q => q ≠ 0

/-- `Math.ceil` on a rational, returned as a rational. -/
def jsCeil (q : ℚ) : ℚ := (Int.ceil q : ℤ)

/-- Does `needle` occur as a prefix of some suffix of `hay`?  This is
`String.prototype.includes` restricted to character lists. -/
def listIncludes (needle : List Char) : List Char → Bool
  | [] => needle.isPrefixOf []
  | c :: rest => needle.isPrefixOf (c :: rest) || listIncludes needle rest

/-- `hay.includes(needle)` from JavaScript. -/
def strIncludes (hay needle : String) : Bool :=
  listIncludes needle.toList hay.toList

/-- Lookup in an association list (models property access on a JS object
literal with unique keys). -/
def lookupAssoc {α : Type} (table : List (String × α)) (key : String) : Option α :=
  match table with
  | [] => none
  | (k, v) :: rest => if k = key then some v else lookupAssoc rest key

/-! ## Data model

The canonical (OpenAI-compatible) request and response shapes, as read by
the code under analysis.  Optional fields are `Option`s; `content` may be a
string, an array of parts, or `null`.
-/

/-- An opaque JSON-schema document (tool `parameters` / `input_schema`).
`repr` is its `JSON.stringify` serialisation, used only for length-based
token estimates. -/
structure JsonSchema where
  repr : String
deriving DecidableEq, Repr

/-- One element of an array-valued message `content`. -/
inductive ContentPart
  | textPart (text : Option String)
  | imagePart (url : Option String) (detail : Option String)
deriving DecidableEq, Repr

/-- Message content: a string, an array of parts, or `null`/`undefined`. -/
inductive MessageContent
  | str (s : String)
  | parts (ps : List ContentPart)
  | nullContent
deriving DecidableEq, Repr

/-- An entry of `message.tool_calls`. -/
structure ToolCall where
  id : String
  fnName : String
  fnArguments : String
deriving DecidableEq, Repr

/-- A canonical chat message. -/
structure OpenAIMessage where
  role : String
  content : MessageContent
  name : Option String := none
  tool_calls : Option (List ToolCall) := none
  tool_call_id : Option String := none
deriving DecidableEq, Repr

/-- A function descriptor inside `tools` (`type` is carried verbatim so the
`type !== 'function'` validation check stays representable). -/
structure ToolDef where
  ttype : String
  fnName : String
  fnDescription : Option String := none
  fnParameters : JsonSchema
deriving DecidableEq, Repr

/-- `tool_choice`: the strings `"none"`/`"auto"` or a function object. -/
inductive ToolChoice
  | tcNone
  | tcAuto
  | tcFunction (fnName : String)
deriving DecidableEq, Repr

/-- `stop`: a single string or an array of strings. -/
inductive StopSpec
  | one (s : String)
  | many (l : List String)
deriving DecidableEq, Repr

/-- The canonical chat-completion request. -/
structure OpenAIRequest where
  messages : Option (List OpenAIMessage) := none
  prompt : Option String := none
  model : Option String := none
  max_tokens : Option ℚ := none
  temperature : Option ℚ := none
  top_p : Option ℚ := none
  top_k : Option ℚ := none
  n : Option ℚ := none
  stop : Option StopSpec := none
  stream : Option Bool := none
  logit_bias : Option (List (String × ℚ)) := none
  presence_penalty : Option ℚ := none
  frequency_penalty : Option ℚ := none
  tools : Option (List ToolDef) := none
  tool_choice : Option ToolChoice := none
deriving DecidableEq, Repr

/-- Token usage reported by an upstream response. -/
structure Usage where
  prompt_tokens : ℚ
  completion_tokens : ℚ
  total_tokens : ℚ
deriving DecidableEq, Repr

/-- The assistant message of a canonical response choice. -/
structure RespMessage where
  role : String
  content : Option String
  tool_calls : Option (List ToolCall) := none
deriving DecidableEq, Repr

/-- One choice of a canonical response. -/
structure Choice where
  index : ℚ
  message : RespMessage
  finish_reason : Option String := none
deriving DecidableEq, Repr

/-- The canonical chat-completion response. -/
structure OpenAIResponse where
  id : String
  object : String
  created : ℚ
  model : String
  choices : List Choice
  usage : Option Usage := none
deriving DecidableEq, Repr

/-! ## Cost model (`UsageService.getModelPricing` / `calculateCost`) -/

/-- A price pair: USD per 1K prompt tokens and per 1K completion tokens. -/
structure Pricing where
  promptPrice : ℚ
  completionPrice : ℚ
deriving DecidableEq, Repr

/-- The static per-provider, per-model price table, in source order. -/
def pricingTable : List (String × List (String × Pricing)) :=
  [ ("openai",
      [ ("gpt-4", ⟨0.03, 0.06⟩)
      , ("gpt-4-turbo", ⟨0.01, 0.03⟩)
      , ("gpt-4-turbo-preview", ⟨0.01, 0.03⟩)
      , ("gpt-3.5-turbo", ⟨0.0015, 0.002⟩)
      , ("gpt-3.5-turbo-16k", ⟨0.003, 0.004⟩) ])
  , ("anthropic",
      [ ("claude-3-opus-20240229", ⟨0.015, 0.075⟩)
      , ("claude-3-sonnet-20240229", ⟨0.003, 0.015⟩)
      , ("claude-3-haiku-20240307", ⟨0.00025, 0.00125⟩)
      , ("claude-2.1", ⟨0.008, 0.024⟩)
      , ("claude-2.0", ⟨0.008, 0.024⟩)
      , ("claude-instant-1.2", ⟨0.0008, 0.0024⟩) ]) ]

/-- `UsageService.getModelPricing`: unknown provider falls back to the
hardcoded default pair; a known provider with an unknown model falls back
to the provider's first listed entry (`Object.keys(providerPricing)[0]`). -/
def getModelPricing (provider model : String) : Pricing :=
  match lookupAssoc pricingTable provider with
  | none => ⟨0.001, 0.002⟩
  | some providerPricing =>
    match lookupAssoc providerPricing model with
    | some pr => pr
    | none =>
      match providerPricing.head? with
      | some (_, pr) => pr
      | none => ⟨0.001, 0.002⟩

/-- `UsageService.calculateCost`. -/
def calculateCost (provider model : String) (promptTokens completionTokens : ℚ) : ℚ :=
  let pricing := getModelPricing provider model
  (promptTokens / 1000) * pricing.promptPrice
    + (completionTokens / 1000) * pricing.completionPrice

/-! ## Provider configuration (`providers.config.ts`) -/

/-- The static configuration of one upstream provider. -/
structure ProviderConfig where
  name : String
  displayName : String
  baseUrl : String
  apiKey : String
  models : List String
  priority : ℚ
  isActive : Bool
deriving DecidableEq, Repr

/-- The process environment variables the configuration layer reads. -/
structure Env where
  openaiApiKey : Option String := none
  anthropicApiKey : Option String := none
  openaiBaseUrl : Option String := none
  openaiOrganization : Option String := none
deriving DecidableEq, Repr

/-- `openaiConfig`: active iff `OPENAI_API_KEY` is set (and non-empty,
since `Boolean('')` is `false`). -/
def openaiConfig (e : Env) : ProviderConfig :=
  { name := "openai"
  , displayName := "OpenAI"
  , baseUrl := if truthyStr e.openaiBaseUrl then e.openaiBaseUrl.getD "" else "https://api.openai.com/v1"
  , apiKey := e.openaiApiKey.getD ""
  , models :=
      [ "deepseek/deepseek-chat-v3.1:free"
      , "deepseek/deepseek-chat"
      , "openai/gpt-4o"
      , "openai/gpt-4o-mini"
      , "anthropic/claude-3.5-sonnet"
      , "gpt-4"
      , "gpt-4-turbo"
      , "gpt-4-turbo-preview"
      , "gpt-3.5-turbo"
      , "gpt-3.5-turbo-16k" ]
  , priority := 1
  , isActive := truthyStr e.openaiApiKey }

/-- `anthropicConfig`. -/
def anthropicConfig (e : Env) : ProviderConfig :=
  { name := "anthropic"
  , displayName := "Anthropic"
  , baseUrl := "https://api.anthropic.com/v1"
  , apiKey := e.anthropicApiKey.getD ""
  , models :=
      [ "claude-3-opus-20240229"
      , "claude-3-sonnet-20240229"
      , "claude-3-haiku-20240307"
      , "claude-2.1"
      , "claude-2.0"
      , "claude-instant-1.2" ]
  , priority := 2
  , isActive := truthyStr e.anthropicApiKey }

/-- `PROVIDER_CONFIGS`, in configured priority order. -/
def PROVIDER_CONFIGS (e : Env) : List ProviderConfig :=
  [openaiConfig e, anthropicConfig e]

/-- `getActiveProviders`. -/
def getActiveProviders (e : Env) : List ProviderConfig :=
  (PROVIDER_CONFIGS e).filter (fun p => p.isActive)

/-- `getProviderByName`. -/
def getProviderByName (e : Env) (name : String) : Option ProviderConfig :=
  (PROVIDER_CONFIGS e).find? (fun p => p.name = name)

/-- `MODEL_PROVIDER_MAP`: the static model-to-provider table. -/
def MODEL_PROVIDER_MAP : List (String × String) :=
  [ ("deepseek/deepseek-chat-v3.1:free", "openai")
  , ("deepseek/deepseek-chat", "openai")
  , ("openai/gpt-4o", "openai")
  , ("openai/gpt-4o-mini", "openai")
  , ("anthropic/claude-3.5-sonnet", "openai")
  , ("gpt-4", "openai")
  , ("gpt-4-turbo", "openai")
  , ("gpt-4-turbo-preview", "openai")
  , ("gpt-3.5-turbo", "openai")
  , ("gpt-3.5-turbo-16k", "openai")
  , ("claude-3-opus", "anthropic")
  , ("claude-3-opus-20240229", "anthropic")
  , ("claude-3-sonnet", "anthropic")
  , ("claude-3-sonnet-20240229", "anthropic")
  , ("claude-3-haiku", "anthropic")
  , ("claude-3-haiku-20240307", "anthropic")
  , ("claude-2.1", "anthropic")
  , ("claude-2.0", "anthropic")
  , ("claude-instant-1.2", "anthropic")
  , ("claude", "anthropic")
  , ("gpt", "openai") ]

/-- `getProviderForModel` from `providers.config.ts` (provider-NAME
resolution used for pricing and logging): exact table match, then the
`"gpt"` / `"claude"` substring fallbacks, then the unconditional default
`"openai"`. -/
def configGetProviderForModel (model : String) : String :=
  match lookupAssoc MODEL_PROVIDER_MAP model with
  | some p => p
  | none =>
    if strIncludes model "gpt" then "openai"
    else if strIncludes model "claude" then "anthropic"
    else "openai"

/-- Code-unit-wise ordering of character lists (the default JS string
comparison). -/
def charListLe : List Char → List Char → Bool
  | [], _ => true
  | _ :: _, [] => false
  | a :: as, b :: bs =>
    if a.toNat < b.toNat then true
    else if b.toNat < a.toNat then false
    else charListLe as bs

/-- The default JS string comparison as a boolean. -/
def strLe (a b : String) : Bool := charListLe a.data b.data

/-- Insert into a sorted list of strings (helper for the JS
`Array.prototype.sort` model). -/
def insertSorted (x : String) : List String → List String
  | [] => [x]
  | y :: rest => if strLe x y then x :: y :: rest else y :: insertSorted x rest

/-- Stable sort of strings in the default JS comparison order. -/
def sortStrings : List String → List String
  | [] => []
  | x :: rest => insertSorted x (sortStrings rest)

/-- `getAllAvailableModels`: union of active providers' model lists,
de-duplicated (`Set` keeps first-insertion order) then sorted. -/
def getAllAvailableModels (e : Env) : List String :=
  let all := ((getActiveProviders e).map (fun p => p.models)).flatten
  let dedup := all.foldl (fun acc m => if m ∈ acc then acc else acc ++ [m]) []
  sortStrings dedup

/-! ## Provider factory (`ProviderFactory`) -/

/-- `ProviderFactory.create`: succeeds (returning the provider name, which
fully determines the adapter) iff the named configuration exists, is
active, and is one of the two known adapter types. -/
def factoryCreate (e : Env) (providerName : String) : Except String String :=
  match getProviderByName e providerName with
  | none => .error ("Provider configuration not found: " ++ providerName)
  | some config =>
    if config.isActive = false then .error ("Provider is not active: " ++ providerName)
    else if config.name = "openai" then .ok "openai"
    else if config.name = "anthropic" then .ok "anthropic"
    else .error ("Unknown provider type: " ++ config.name)

/-- `ProviderFactory.getProviderForModel` (ADAPTER resolution): exact match
against each active provider's configured model list, then a fuzzy match
where the model string must contain the provider's NAME, then the first
active provider, and an error only when no provider is active. -/
def factoryGetProviderForModel (e : Env) (model : String) : Except String String :=
  let activeProviders := getActiveProviders e
  match activeProviders.find? (fun config => model ∈ config.models) with
  | some config => factoryCreate e config.name
  | none =>
    match activeProviders.find? (fun config => strIncludes model config.name) with
    | some config => factoryCreate e config.name
    | none =>
      match activeProviders.head? with
      | some config => factoryCreate e config.name
      | none => .error ("No active providers available for model: " ++ model)

/-! ## Adapter validation (`BaseProvider.validateRequest`,
`AnthropicProvider.validateRequest`) -/

/-- `BaseProvider.validateRequest` (shared baseline).  Note that the two
`max_tokens` range checks are guarded by JS truthiness of the value itself
(`request.max_tokens && ...`), so the value `0` skips both. -/
def baseValidateRequest (cfg : ProviderConfig) (req : OpenAIRequest) : Except String Unit :=
  if req.messages.isNone ∧ ¬ truthyStr req.prompt then
    .error "Either messages or prompt is required"
  else if req.messages = some [] then
    .error "Messages array cannot be empty"
  else if truthyStr req.model ∧ req.model.getD "" ∉ cfg.models then
    .error "Model not supported by provider"
  else if truthyNum req.max_tokens ∧ req.max_tokens.getD 0 < 1 then
    .error "max_tokens must be greater than 0"
  else if truthyNum req.max_tokens ∧ req.max_tokens.getD 0 > 100000 then
    .error "max_tokens cannot exceed 100000"
  else if (∃ t, req.temperature = some t ∧ (t < 0 ∨ t > 2)) then
    .error "temperature must be between 0 and 2"
  else if (∃ p, req.top_p = some p ∧ (p ≤ 0 ∨ p > 1)) then
    .error "top_p must be between 0 and 1"
  else
    .ok ()

/-- `AnthropicProvider.validateRequest`: the shared baseline first, then the
Anthropic-specific rejections.  `!request.max_tokens` is truthiness, so an
absent OR zero `max_tokens` is rejected as missing. -/
def anthropicValidateRequest (cfg : ProviderConfig) (req : OpenAIRequest) : Except String Unit :=
  match baseValidateRequest cfg req with
  | .error e => .error e
  | .ok _ =>
    if req.messages.isNone then
      .error "Anthropic provider requires messages format"
    else if req.logit_bias.isSome then
      .error "logit_bias is not supported by Anthropic"
    else if truthyNum req.n ∧ req.n.getD 0 > 1 then
      .error "Anthropic does not support multiple completions"
    else if req.presence_penalty.isSome then
      .error "presence_penalty is not supported by Anthropic"
    else if req.frequency_penalty.isSome then
      .error "frequency_penalty is not supported by Anthropic"
    else if ¬ truthyNum req.max_tokens then
      .error "max_tokens is required for Anthropic"
    else if req.max_tokens.getD 0 > 4096 then
      .error "max_tokens cannot exceed 4096 for Anthropic"
    else
      .ok ()

/-! ## Orchestrator validation (`ChatService.validateRequest`) -/

/-- `Number.isInteger` on a rational. -/
def jsIsInteger (q : ℚ) : Bool := q.den = 1

/-- The per-message structural checks of `ChatService.validateRequest`. -/
def chatValidateMessage (m : OpenAIMessage) : Except String Unit :=
  if m.role = "" then
    .error "Message is missing role"
  else if m.role ∉ ["system", "user", "assistant", "tool"] then
    .error "Invalid role"
  else if m.content = .nullContent ∧ ¬(m.role = "assistant" ∧ m.tool_calls.isSome) then
    .error "Message is missing content"
  else if (∃ tcs, m.tool_calls = some tcs ∧ ∃ tc ∈ tcs, tc.id = "" ∨ tc.fnName = "") then
    .error "Invalid tool call structure"
  else if m.role = "tool" ∧ ¬ truthyStr m.tool_call_id then
    .error "Tool message is missing tool_call_id"
  else
    .ok ()

/-- First failing message check, in order. -/
def chatValidateMessages : List OpenAIMessage → Except String Unit
  | [] => .ok ()
  | m :: rest =>
    match chatValidateMessage m with
    | .error e => .error e
    | .ok _ => chatValidateMessages rest

/-- The per-tool checks of `ChatService.validateRequest`.  The runtime
check for a missing `parameters` field guards a field that the typed
request shape always carries, and is dead in this model. -/
def chatValidateTool (t : ToolDef) : Except String Unit :=
  if t.ttype ≠ "function" then
    .error "Tool must have type function"
  else if t.fnName = "" then
    .error "Tool is missing function name"
  else
    .ok ()

/-- First failing tool check, in order. -/
def chatValidateTools : List ToolDef → Except String Unit
  | [] => .ok ()
  | t :: rest =>
    match chatValidateTool t with
    | .error e => .error e
    | .ok _ => chatValidateTools rest

/-- `ChatService.validateRequest` (orchestrator-level validation).  The
model-availability check consults `getAllAvailableModels`, hence the
environment parameter. -/
def chatValidateRequest (e : Env) (req : OpenAIRequest) : Except String Unit :=
  if req.messages.isNone ∧ ¬ truthyStr req.prompt then
    .error "Either messages or prompt is required"
  else if req.messages = some [] then
    .error "Messages array cannot be empty"
  else
    match (match req.messages with
           | some ms => chatValidateMessages ms
           | none => .ok ()) with
    | .error msgErr => .error msgErr
    | .ok _ =>
      if truthyStr req.model ∧ req.model.getD "" ∉ getAllAvailableModels e then
        .error "Model not available"
      else if (∃ v, req.max_tokens = some v ∧ (¬ jsIsInteger v ∨ v < 1)) then
        .error "max_tokens must be a positive integer"
      else if (∃ v, req.max_tokens = some v ∧ v > 100000) then
        .error "max_tokens cannot exceed 100000"
      else if (∃ t, req.temperature = some t ∧ (t < 0 ∨ t > 2)) then
        .error "temperature must be a number between 0 and 2"
      else if (∃ p, req.top_p = some p ∧ (p ≤ 0 ∨ p > 1)) then
        .error "top_p must be a number between 0 and 1"
      else if (∃ v, req.n = some v ∧ (¬ jsIsInteger v ∨ v < 1 ∨ v > 10)) then
        .error "n must be an integer between 1 and 10"
      else
        match (match req.tools with
               | some ts => chatValidateTools ts
               | none => .ok ()) with
        | .error toolErr => .error toolErr
        | .ok _ =>
          if req.tool_choice = some (.tcFunction "") then
            .error "tool_choice function must have a name"
          else
            .ok ()

/-! ## Token estimators -/

/-- `Math.ceil(s.length / 4)`. -/
def lenDiv4 (s : String) : ℚ := jsCeil ((s.length : ℚ) / 4)

/-- The JavaScript `\s` character class (whitespace for `split(/\s+/)`). -/
def jsIsWhitespace (c : Char) : Bool :=
  c = ' ' || c = '\t' || c = '\n' || c = '\r' ||
  c.val = 11 || c.val = 12 ||
  c.val = 0xa0 || c.val = 0x1680 ||
  (0x2000 ≤ c.val && c.val ≤ 0x200a) ||
  c.val = 0x2028 || c.val = 0x2029 || c.val = 0x202f ||
  c.val = 0x205f || c.val = 0x3000 || c.val = 0xfeff

/-- Number of maximal whitespace runs (the flag says whether we are inside
a run). -/
def wsRunsAux : Bool → List Char → Nat
  | _, [] => 0
  | inRun, c :: rest =>
    if jsIsWhitespace c then (if inRun then 0 else 1) + wsRunsAux true rest
    else wsRunsAux false rest

/-- `s.split(/\s+/).length`: one more than the number of maximal
whitespace runs (boundary matches produce empty pieces, which JS keeps). -/
def jsSplitWsCount (s : String) : Nat := 1 + wsRunsAux false s.toList

/-- `Math.ceil(words * 0.75)` for the word count of `s`. -/
def wordTokens (s : String) : ℚ := jsCeil ((jsSplitWsCount s : ℚ) * 0.75)

/-- `BaseProvider.estimateTokens`: characters/4 per string-typed message
content, plus prompt, plus `max_tokens || 1000`. -/
def baseEstimateTokens (req : OpenAIRequest) : ℚ :=
  (match req.messages with
   | some ms =>
     (ms.map (fun m => match m.content with
       | .str s => lenDiv4 s
       | _ => 0)).sum
   | none => 0)
  + (if truthyStr req.prompt then lenDiv4 (req.prompt.getD "") else 0)
  + (if truthyNum req.max_tokens then req.max_tokens.getD 0 else 1000)

/-- Per-message contribution of `OpenAIProvider.estimateTokens`. -/
def openaiMessageTokens (m : OpenAIMessage) : ℚ :=
  4
  + (match m.content with
     | .str s => wordTokens s
     | .parts ps =>
       (ps.map (fun p => match p with
         | .textPart t => if truthyStr t then wordTokens (t.getD "") else 0
         | .imagePart _ detail =>
           if (if truthyStr detail then detail.getD "" else "auto") = "high" then 765 else 85)).sum
     | .nullContent => 0)
  + 1
  + (if truthyStr m.name then 1 else 0)
  + (match m.tool_calls with
     | some tcs => (tcs.map (fun tc => 3 + lenDiv4 tc.fnName + lenDiv4 tc.fnArguments)).sum
     | none => 0)

/-- `OpenAIProvider.estimateTokens`: word-based content estimate with
per-message overheads, image and tool costs, plus `max_tokens || 1000`. -/
def openaiEstimateTokens (req : OpenAIRequest) : ℚ :=
  3
  + (match req.messages with
     | some ms => (ms.map openaiMessageTokens).sum
     | none => 0)
  + (match req.tools with
     | some ts =>
       (ts.map (fun t => 3 + lenDiv4 t.fnName
         + (if truthyStr t.fnDescription then lenDiv4 (t.fnDescription.getD "") else 0)
         + lenDiv4 t.fnParameters.repr)).sum
     | none => 0)
  + (if truthyNum req.max_tokens then req.max_tokens.getD 0 else 1000)

/-- `estimateTokenUsage` from the rate-limit middleware: characters/4 over
truthy string message contents and prompt, plus `max_tokens || 1000`;
`0` when the request has no body. -/
def estimateTokenUsage (body : Option OpenAIRequest) : ℚ :=
  match body with
  | none => 0
  | some b =>
    (match b.messages with
     | some ms =>
       (ms.map (fun m => match m.content with
         | .str s => if s ≠ "" then lenDiv4 s else 0
         | _ => 0)).sum
     | none => 0)
    + (if truthyStr b.prompt then lenDiv4 (b.prompt.getD "") else 0)
    + (if truthyNum b.max_tokens then b.max_tokens.getD 0 else 1000)

/-! ## Anthropic adapter: request/response transformation -/

/-- One block of an Anthropic message's array content. -/
inductive AnthContentPart
  | textBlock (text : String)
  | imageBlock (mediaType : String) (data : Option String)
deriving DecidableEq, Repr

/-- Anthropic message content: a string or an array of blocks. -/
inductive AnthContent
  | str (s : String)
  | parts (l : List AnthContentPart)
deriving DecidableEq, Repr

/-- An Anthropic wire-format message. -/
structure AnthMessage where
  role : String
  content : AnthContent
deriving DecidableEq, Repr

/-- An Anthropic tool descriptor. -/
structure AnthropicTool where
  name : String
  description : Option String
  input_schema : JsonSchema
deriving DecidableEq, Repr

/-- An Anthropic `tool_choice` directive. -/
structure AnthToolChoice where
  ctype : String
  name : Option String := none
deriving DecidableEq, Repr

/-- The Anthropic wire-format request. -/
structure AnthropicRequest where
  model : String
  max_tokens : ℚ
  messages : List AnthMessage
  system : Option String := none
  temperature : Option ℚ := none
  top_p : Option ℚ := none
  top_k : Option ℚ := none
  stop_sequences : Option (List String) := none
  stream : Option Bool := none
  tools : Option (List AnthropicTool) := none
  tool_choice : Option AnthToolChoice := none
deriving DecidableEq, Repr

/-- Truthiness of the optional `stop` field (`""` is falsy, `[]` truthy). -/
def truthyStop : Option StopSpec → Bool
  | none => false
  | some (.one s) => s ≠ ""
  | some (.many _) => true

/-- The regex search `header.match(/data:([^;]+)/)`: the first occurrence
of `data:` followed by at least one non-`;` character yields that run; on
failure the engine retries from the next position. -/
def dataMediaAux : List Char → Option String
  | [] => none
  | c :: rest =>
    if ("data:".toList).isPrefixOf (c :: rest) then
      let mt := ((c :: rest).drop 5).takeWhile (fun ch => ch ≠ ';')
      if mt = [] then dataMediaAux rest else some (String.mk mt)
    else dataMediaAux rest

/-- Media type of a data-URI header, defaulting to `image/jpeg`. -/
def matchDataMedia (header : String) : String :=
  match dataMediaAux header.toList with
  | some mt => mt
  | none => "image/jpeg"

/-- One content part through `AnthropicProvider.transformMessage`: text
parts keep their text (`part.text || ''`), base64 data-URIs become inline
image blocks, and remote image URLs degrade to a textual placeholder. -/
def anthropicTransformPart : ContentPart → AnthContentPart
  | .textPart t => .textBlock (t.getD "")
  | .imagePart url _ =>
    let imageUrl := url.getD ""
    if imageUrl.startsWith "data:" then
      .imageBlock (matchDataMedia ((imageUrl.splitOn ",").headD ""))
        ((imageUrl.splitOn ",")[1]?)
    else
      .textBlock ("[Image: " ++ imageUrl ++ "]")

/-- `AnthropicProvider.transformMessage`. -/
def anthropicTransformMessage (m : OpenAIMessage) : AnthMessage :=
  let role := if m.role = "user" then "user" else "assistant"
  match m.content with
  | .str s => ⟨role, .str s⟩
  | .parts ps => ⟨role, .parts (ps.map anthropicTransformPart)⟩
  | .nullContent => ⟨role, .str ""⟩

/-- The message loop of `AnthropicProvider.transformRequest`: accumulates
the double-newline-joined system string from string-typed `system`
messages, transforms `user`/`assistant` messages, and skips everything
else (`tool` messages, array-content system messages). -/
def anthropicCollectAux (sys : String) : List OpenAIMessage → String × List AnthMessage
  | [] => (sys, [])
  | m :: rest =>
    if m.role = "system" then
      match m.content with
      | .str s => anthropicCollectAux (sys ++ (if sys ≠ "" then "\n\n" else "") ++ s) rest
      | _ => anthropicCollectAux sys rest
    else if m.role = "user" ∨ m.role = "assistant" then
      let (s, ms) := anthropicCollectAux sys rest
      (s, anthropicTransformMessage m :: ms)
    else
      anthropicCollectAux sys rest

/-- `AnthropicProvider.mapModelName`. -/
def anthropicMapModelName (model : String) : String :=
  match lookupAssoc
      [ ("claude-3-opus", "claude-3-opus-20240229")
      , ("claude-3-sonnet", "claude-3-sonnet-20240229")
      , ("claude-3-haiku", "claude-3-haiku-20240307")
      , ("claude", "claude-3-sonnet-20240229") ] model with
  | some m => m
  | none => model

/-- `AnthropicProvider.transformRequest`. -/
def anthropicTransformRequest (cfg : ProviderConfig) (req : OpenAIRequest) :
    Except String AnthropicRequest :=
  match req.messages with
  | none => .error "Anthropic provider requires messages format"
  | some msgs =>
    let collected := anthropicCollectAux "" msgs
    let systemMessage := collected.1
    let base : AnthropicRequest :=
      { model := anthropicMapModelName
          (if truthyStr req.model then req.model.getD "" else cfg.models.headD "")
      , max_tokens := if truthyNum req.max_tokens then req.max_tokens.getD 0 else 1000
      , messages := collected.2
      , system := if systemMessage ≠ "" then some systemMessage else none
      , temperature := req.temperature
      , top_p := req.top_p
      , top_k := req.top_k
      , stop_sequences :=
          if truthyStop req.stop then
            some (match req.stop with
                  | some (.many l) => l
                  | some (.one s) => [s]
                  | none => [])
          else none
      , stream := req.stream }
    match req.tools with
    | none => .ok base
    | some ts =>
      let withTools :=
        { base with tools := some (ts.map (fun t => ⟨t.fnName, t.fnDescription, t.fnParameters⟩)) }
      match req.tool_choice with
      | none => .ok withTools
      | some .tcAuto => .ok { withTools with tool_choice := some ⟨"auto", none⟩ }
      | some .tcNone => .ok { withTools with tools := none }
      | some (.tcFunction f) => .ok { withTools with tool_choice := some ⟨"tool", some f⟩ }

/-- One block of an Anthropic response's content. -/
inductive AnthRespBlock
  | textBlock (text : Option String)
  | toolUse (id : Option String) (name : Option String) (input : Option JsonSchema)
deriving DecidableEq, Repr

/-- Anthropic usage figures. -/
structure AnthUsage where
  input_tokens : ℚ
  output_tokens : ℚ
deriving DecidableEq, Repr

/-- The Anthropic wire-format response. -/
structure AnthropicResponse where
  id : String
  model : String
  content : List AnthRespBlock
  stop_reason : String
  usage : AnthUsage
deriving DecidableEq, Repr

/-- `AnthropicProvider.mapFinishReason` (unknown reasons default to
`stop`). -/
def anthropicMapFinishReason (stopReason : String) : String :=
  match lookupAssoc
      [ ("end_turn", "stop")
      , ("max_tokens", "length")
      , ("stop_sequence", "stop")
      , ("tool_use", "tool_calls") ] stopReason with
  | some r => r
  | none => "stop"

/-- `JSON.stringify(item.input || \x7b\x7d)`. -/
def jsonStringifyObj : Option JsonSchema → String
  | some j => j.repr
  | none => "\x7b\x7d"

/-- `AnthropicProvider.transformResponse`; `now` stands for `Date.now()`
(used for the `created` timestamp and synthesized tool-call ids). -/
def anthropicTransformResponse (resp : AnthropicResponse) (now : ℕ) : OpenAIResponse :=
  let folded := resp.content.foldl
    (fun (acc : String × List ToolCall) item =>
      match item with
      | .textBlock t => (acc.1 ++ t.getD "", acc.2)
      | .toolUse id name input =>
        (acc.1, acc.2 ++ [⟨(if truthyStr id then id.getD "" else "call_" ++ toString now),
                           name.getD "", jsonStringifyObj input⟩]))
    ("", [])
  let cnt := folded.1
  let toolCalls := folded.2
  { id := resp.id
  , object := "chat.completion"
  , created := ((now / 1000 : ℕ) : ℚ)
  , model := resp.model
  , choices :=
      [ { index := 0
        , message :=
            { role := "assistant"
            , content := if cnt ≠ "" then some cnt else none
            , tool_calls := if toolCalls ≠ [] then some toolCalls else none }
        , finish_reason := some (anthropicMapFinishReason resp.stop_reason) } ]
  , usage := some ⟨resp.usage.input_tokens, resp.usage.output_tokens,
                   resp.usage.input_tokens + resp.usage.output_tokens⟩ }

/-! ## Outbound header construction and merging -/

/-- ASCII lowercasing of one character (`key.toLowerCase()` restricted to
the ASCII range relevant to header names). -/
def charLower (c : Char) : Char :=
  if 65 ≤ c.toNat ∧ c.toNat ≤ 90 then Char.ofNat (c.toNat + 32) else c

/-- `key.toLowerCase()`. -/
def jsToLower (s : String) : String := String.mk (s.data.map charLower)

/-- A caller-supplied header value (`string | string[] | undefined`). -/
inductive HeaderVal
  | str (s : String)
  | arr (l : List String)
  | undef
deriving DecidableEq, Repr

/-- JS object property write: replace the value of an existing key, else
append. -/
def objSet : List (String × String) → String → String → List (String × String)
  | [], k, v => [(k, v)]
  | (k', v') :: rest, k, v =>
    if k' = k then (k', v) :: rest else (k', v') :: objSet rest k v

/-- JS object property read. -/
def objGet : List (String × String) → String → Option String
  | [], _ => none
  | (k', v) :: rest, k => if k' = k then some v else objGet rest k

/-- JS `delete obj[k]` (exact key only). -/
def objDelete : List (String × String) → String → List (String × String)
  | [], _ => []
  | (k', v) :: rest, k => if k' = k then objDelete rest k else (k', v) :: objDelete rest k

/-- `AnthropicProvider.getHeaders`. -/
def anthropicGetHeaders (cfg : ProviderConfig) : List (String × String) :=
  [ ("x-api-key", cfg.apiKey)
  , ("Content-Type", "application/json")
  , ("anthropic-version", "2023-06-01")
  , ("User-Agent", "OpenAI-Router/1.0.0") ]

/-- `OpenAIProvider.getHeaders` (the organization header is added when the
environment variable is truthy). -/
def openaiGetHeaders (cfg : ProviderConfig) (e : Env) : List (String × String) :=
  let headers :=
    [ ("Authorization", "Bearer " ++ cfg.apiKey)
    , ("Content-Type", "application/json")
    , ("User-Agent", "OpenAI-Router/1.0.0") ]
  if truthyStr e.openaiOrganization then
    objSet headers "OpenAI-Organization" (e.openaiOrganization.getD "")
  else headers

/-- `AnthropicProvider.mergeHeaders`: caller headers are merged over the
base headers, skipping any key whose lowercasing is `x-api-key` or
`authorization`; then the exact keys `Host` and `host` are deleted. -/
def anthropicMergeHeaders (baseHeaders : List (String × String))
    (userHeaders : Option (List (String × HeaderVal))) : List (String × String) :=
  let merged := (userHeaders.getD []).foldl
    (fun acc kv =>
      if jsToLower kv.1 = "x-api-key" ∨ jsToLower kv.1 = "authorization" then acc
      else match kv.2 with
        | .arr l => objSet acc kv.1 (String.intercalate ", " l)
        | .str s => objSet acc kv.1 s
        | .undef => acc)
    baseHeaders
  objDelete (objDelete merged "Host") "host"

/-- `OpenAIProvider.mergeHeaders` (identical policy; the two skip
comparisons appear in the opposite order in the source). -/
def openaiMergeHeaders (baseHeaders : List (String × String))
    (userHeaders : Option (List (String × HeaderVal))) : List (String × String) :=
  let merged := (userHeaders.getD []).foldl
    (fun acc kv =>
      if jsToLower kv.1 = "authorization" ∨ jsToLower kv.1 = "x-api-key" then acc
      else match kv.2 with
        | .arr l => objSet acc kv.1 (String.intercalate ", " l)
        | .str s => objSet acc kv.1 s
        | .undef => acc)
    baseHeaders
  objDelete (objDelete merged "Host") "host"

/-! ## Rate limiting (`MemoryRateLimitStore`, `rateLimit` middleware) -/

/-- A fixed-window counter entry. -/
structure RLEntry where
  count : ℕ
  resetTime : ℕ
deriving DecidableEq, Repr

/-- The in-memory store, keyed by caller-scoped strings. -/
def RLStore := String → Option RLEntry

/-- The store with no entries. -/
def rlEmpty : RLStore := fun _ => none

/-- Point update of the store. -/
def rlSet (st : RLStore) (key : String) (e : RLEntry) : RLStore :=
  fun k => if k = key then some e else st k

/-- `MemoryRateLimitStore.increment`: a missing or expired entry
(`now > resetTime`) restarts the window at count 1; otherwise the count is
incremented in place. -/
def rlIncrement (st : RLStore) (key : String) (windowMs now : ℕ) : ℕ × RLStore :=
  match st key with
  | some entry =>
    if now > entry.resetTime then (1, rlSet st key ⟨1, now + windowMs⟩)
    else (entry.count + 1, rlSet st key ⟨entry.count + 1, entry.resetTime⟩)
  | none => (1, rlSet st key ⟨1, now + windowMs⟩)

/-- A sequence of increments of one key at the given times. -/
def rlIncrementSeq (st : RLStore) (key : String) (w : ℕ) : List ℕ → RLStore
  | [] => st
  | t :: ts => rlIncrementSeq (rlIncrement st key w t).2 key w ts

/-- The outcome of one pass through the `rateLimit` middleware: the
post-increment count, the reported remaining budget, and whether the
request was admitted (`current > maxRequests` rejects). -/
structure RateLimitResult where
  allowed : Bool
  current : ℕ
  remaining : ℤ
  store : RLStore

/-- The admission decision and headers of the `rateLimit` middleware. -/
def rateLimitCheck (st : RLStore) (key : String) (windowMs maxRequests now : ℕ) :
    RateLimitResult :=
  let r := rlIncrement st key windowMs now
  { allowed := !(decide (r.1 > maxRequests))
  , current := r.1
  , remaining := max 0 ((maxRequests : ℤ) - (r.1 : ℤ))
  , store := r.2 }

/-! ## Completion orchestrator (`ChatService.createCompletion`) -/

/-- A usage-sink record (`CreateUsageLogData`); the wall-clock latency
field is omitted from the model. -/
structure UsageRecord where
  userId : String
  apiKeyId : String
  provider : String
  model : String
  promptTokens : ℚ
  completionTokens : ℚ
  totalTokens : ℚ
  cost : ℚ
  success : Bool
  errorMessage : Option String := none
deriving DecidableEq, Repr

/-- `UsageService.logUsage`: a falsy (zero) cost is recomputed from the
token counts before the record is persisted. -/
def logUsage (r : UsageRecord) : UsageRecord :=
  if r.cost = 0 then
    { r with cost := calculateCost r.provider r.model r.promptTokens r.completionTokens }
  else r

/-- `ChatService.getDefaultModel`. -/
def chatGetDefaultModel (e : Env) : Except String String :=
  let availableModels := getAllAvailableModels e
  if "gpt-3.5-turbo" ∈ availableModels then .ok "gpt-3.5-turbo"
  else
    match availableModels.head? with
    | some m => .ok m
    | none => .error "No models available"

/-- `provider.estimateTokens` dispatch: the OpenAI adapter overrides the
base estimator, the Anthropic adapter inherits it. -/
def providerEstimateTokens (providerName : String) (req : OpenAIRequest) : ℚ :=
  if providerName = "openai" then openaiEstimateTokens req else baseEstimateTokens req

/-- What the orchestrator establishes before the upstream call. -/
structure PreDispatch where
  model : String
  providerName : String
  estimatedTokens : ℚ
  estimatedCost : ℚ
deriving DecidableEq, Repr

/-- The pre-dispatch pipeline of `ChatService.createCompletion`: validate,
substitute the default model, resolve the provider name and adapter,
estimate tokens and cost (70/30 prompt/completion split), and check the
caller's credit balance. -/
def chatPreDispatch (e : Env) (req : OpenAIRequest) (userCredits : ℚ) :
    Except String PreDispatch :=
  match chatValidateRequest e req with
  | .error er => .error er
  | .ok _ =>
    match (if truthyStr req.model then .ok (req.model.getD "") else chatGetDefaultModel e :
           Except String String) with
    | .error er => .error er
    | .ok model =>
      let providerName := configGetProviderForModel model
      match factoryGetProviderForModel e model with
      | .error er => .error er
      | .ok adapterName =>
        let estimatedTokens := providerEstimateTokens adapterName req
        let estimatedCost := calculateCost providerName model
          ((Int.floor (estimatedTokens * 0.7) : ℤ) : ℚ)
          ((Int.floor (estimatedTokens * 0.3) : ℤ) : ℚ)
        if userCredits < estimatedCost then .error "Insufficient credits"
        else .ok ⟨model, providerName, estimatedTokens, estimatedCost⟩

/-- The observable outcome of one orchestration: the returned value or
error, the records written to the usage sink, and whether the upstream
dispatch was reached. -/
structure CompletionOutcome where
  result : Except String OpenAIResponse
  usageWrites : List UsageRecord
  upstreamCalled : Bool
deriving Repr

/-- The failed-usage record written by the catch-all of
`createCompletion` (`request.model || 'unknown'`). -/
def failedUsageRecord (req : OpenAIRequest) (userId apiKeyId err : String) : UsageRecord :=
  { userId := userId
  , apiKeyId := apiKeyId
  , provider := if truthyStr req.model then configGetProviderForModel (req.model.getD "") else "unknown"
  , model := if truthyStr req.model then req.model.getD "" else "unknown"
  , promptTokens := 0
  , completionTokens := 0
  , totalTokens := 0
  , cost := 0
  , success := false
  , errorMessage := some err }

/-- `ChatService.createCompletion`.  The upstream interaction is an input
(`dispatchResult`); every failure path, pre-dispatch included, lands in
the catch-all that writes one zero-cost failed usage record. -/
def createCompletion (e : Env) (req : OpenAIRequest) (userCredits : ℚ)
    (userId apiKeyId : String) (dispatchResult : Except String OpenAIResponse) :
    CompletionOutcome :=
  match chatPreDispatch e req userCredits with
  | .error er => ⟨.error er, [logUsage (failedUsageRecord req userId apiKeyId er)], false⟩
  | .ok pre =>
    match dispatchResult with
    | .error er => ⟨.error er, [logUsage (failedUsageRecord req userId apiKeyId er)], true⟩
    | .ok response =>
      let actualUsage :=
        match response.usage with
        | some u => u
        | none => ⟨((Int.floor (pre.estimatedTokens * 0.7) : ℤ) : ℚ),
                   ((Int.floor (pre.estimatedTokens * 0.3) : ℤ) : ℚ),
                   pre.estimatedTokens⟩
      let actualCost := calculateCost pre.providerName pre.model
        actualUsage.prompt_tokens actualUsage.completion_tokens
      ⟨.ok response,
       [logUsage
         { userId := userId
         , apiKeyId := apiKeyId
         , provider := pre.providerName
         , model := pre.model
         , promptTokens := actualUsage.prompt_tokens
         , completionTokens := actualUsage.completion_tokens
         , totalTokens := actualUsage.total_tokens
         , cost := actualCost
         , success := true }],
       true⟩

/-! ## Concrete fixtures used by witnesses and counterexamples -/

/-- An environment with both providers active. -/
def envBoth : Env := { openaiApiKey := some "sk-o", anthropicApiKey := some "sk-a" }

/-- An environment with only the OpenAI-style provider active. -/
def envOpenAI : Env := { openaiApiKey := some "sk-o" }

/-- A minimal well-formed request with a single user text message. -/
def simpleReq (mt : Option ℚ) : OpenAIRequest :=
  { messages := some [{ role := "user", content := .str "hi" }], max_tokens := mt }

/-! ## Claim C3 — cost model -/

/-- C3: `calculateCost` equals `(promptTokens/1000)·promptPrice +
(completionTokens/1000)·completionPrice` for the resolved price pair; an
unknown model under a known provider falls back to that provider's first
listed entry (`gpt-4` prices for openai, `claude-3-opus` prices for
anthropic), an unknown provider falls back to the hardcoded default pair,
and for `openai`/`gpt-3.5-turbo` with 1000 prompt and 1000 completion
tokens the cost is exactly `0.0035`. -/
theorem calculateCost_formula_and_fallbacks :
    (∀ provider model (pt ct : ℚ), 0 ≤ pt → 0 ≤ ct →
      calculateCost provider model pt ct =
        (pt / 1000) * (getModelPricing provider model).promptPrice
          + (ct / 1000) * (getModelPricing provider model).completionPrice)
    ∧ (∀ model,
        model ∉ ["gpt-4", "gpt-4-turbo", "gpt-4-turbo-preview", "gpt-3.5-turbo",
                 "gpt-3.5-turbo-16k"] →
        getModelPricing "openai" model = ⟨0.03, 0.06⟩)
    ∧ (∀ model,
        model ∉ ["claude-3-opus-20240229", "claude-3-sonnet-20240229",
                 "claude-3-haiku-20240307", "claude-2.1", "claude-2.0",
                 "claude-instant-1.2"] →
        getModelPricing "anthropic" model = ⟨0.015, 0.075⟩)
    ∧ (∀ provider model, provider ∉ ["openai", "anthropic"] →
        getModelPricing provider model = ⟨0.001, 0.002⟩)
    ∧ calculateCost "openai" "gpt-3.5-turbo" 1000 1000 = 0.0035 := by
  refine ⟨fun p m pt ct _ _ => rfl, ?_, ?_, ?_, ?_⟩
  · intro model hm
    simp only [List.mem_cons, List.not_mem_nil, or_false, not_or] at hm
    obtain ⟨h1, h2, h3, h4, h5⟩ := hm
    simp [getModelPricing, pricingTable, lookupAssoc,
      Ne.symm h1, Ne.symm h2, Ne.symm h3, Ne.symm h4, Ne.symm h5]
  · intro model hm
    simp only [List.mem_cons, List.not_mem_nil, or_false, not_or] at hm
    obtain ⟨h1, h2, h3, h4, h5, h6⟩ := hm
    simp [getModelPricing, pricingTable, lookupAssoc,
      Ne.symm h1, Ne.symm h2, Ne.symm h3, Ne.symm h4, Ne.symm h5, Ne.symm h6]
  · intro provider model hm
    simp only [List.mem_cons, List.not_mem_nil, or_false, not_or] at hm
    obtain ⟨h1, h2⟩ := hm
    simp [getModelPricing, pricingTable, lookupAssoc, Ne.symm h1, Ne.symm h2]
  · have h : getModelPricing "openai" "gpt-3.5-turbo" = ⟨0.0015, 0.002⟩ := rfl
    simp only [calculateCost, h]
    norm_num

/-- C3 witness: concrete instantiations of every hypothesis-bearing
conjunct. -/
theorem calculateCost_formula_and_fallbacks_witness :
    (calculateCost "openai" "gpt-4" 2000 1000 =
      (2000 / 1000) * (getModelPricing "openai" "gpt-4").promptPrice
        + (1000 / 1000) * (getModelPricing "openai" "gpt-4").completionPrice)
    ∧ getModelPricing "openai" "o3" = ⟨0.03, 0.06⟩
    ∧ getModelPricing "anthropic" "claude-4" = ⟨0.015, 0.075⟩
    ∧ getModelPricing "mistral" "mistral-7b" = ⟨0.001, 0.002⟩ :=
  ⟨calculateCost_formula_and_fallbacks.1 "openai" "gpt-4" 2000 1000 (by norm_num) (by norm_num),
   calculateCost_formula_and_fallbacks.2.1 "o3" (by decide),
   calculateCost_formula_and_fallbacks.2.2.1 "claude-4" (by decide),
   calculateCost_formula_and_fallbacks.2.2.2.1 "mistral" "mistral-7b" (by decide)⟩

/-! ## Claim C2 — provider resolution -/

/-- Creating an adapter for a provider drawn from the active list always
succeeds and yields that provider. -/
theorem factoryCreate_of_mem_active (e : Env) (c : ProviderConfig)
    (hc : c ∈ getActiveProviders e) : factoryCreate e c.name = .ok c.name := by
  simp only [getActiveProviders, PROVIDER_CONFIGS, List.mem_filter, List.mem_cons,
    List.not_mem_nil, or_false] at hc
  obtain ⟨hmem, hact⟩ := hc
  rcases hmem with rfl | rfl
  · simp only [openaiConfig] at hact ⊢
    simp [factoryCreate, getProviderByName, PROVIDER_CONFIGS, openaiConfig, anthropicConfig, hact]
  · simp only [anthropicConfig] at hact ⊢
    simp [factoryCreate, getProviderByName, PROVIDER_CONFIGS, openaiConfig, anthropicConfig, hact]

/-- The first element of a list satisfying a predicate, when everything
before it fails the predicate, is what `find?` returns. -/
theorem find?_append_first {α : Type} (p : α → Bool) :
    ∀ (pre : List α) (c : α) (post : List α),
      (∀ x ∈ pre, p x = false) → p c = true →
      (pre ++ c :: post).find? p = some c := by
  intro pre
  induction pre with
  | nil =>
    intro c post _ hc
    rw [List.nil_append]
    exact List.find?_cons_of_pos _ hc
  | cons a rest ih =>
    intro c post hpre hc
    have ha : p a = false := hpre a (List.mem_cons_self a rest)
    rw [List.cons_append, List.find?_cons_of_neg _ (by simp [ha])]
    exact ih c post (fun x hx => hpre x (List.mem_cons_of_mem _ hx)) hc

/-- C2: split resolution behaviour as amended.  The provider-NAME resolver
(`providers.config.ts`) follows exact table match, then the `"gpt"` /
`"claude"` substring fallbacks, then the unconditional default `"openai"`
(it never fails).  The ADAPTER resolver (`ProviderFactory`) resolves to
the FIRST active provider whose configured model list contains the model;
failing that, to the FIRST active provider whose NAME
(`"openai"`/`"anthropic"`, not `"gpt"`/`"claude"`) occurs inside the model
string; failing that, to the first active provider; and it errors exactly
when no provider is active. -/
theorem provider_resolution_amended :
    (∀ m p, lookupAssoc MODEL_PROVIDER_MAP m = some p → configGetProviderForModel m = p)
    ∧ (∀ m, lookupAssoc MODEL_PROVIDER_MAP m = none → strIncludes m "gpt" = true →
        configGetProviderForModel m = "openai")
    ∧ (∀ m, lookupAssoc MODEL_PROVIDER_MAP m = none → strIncludes m "gpt" = false →
        strIncludes m "claude" = true → configGetProviderForModel m = "anthropic")
    ∧ (∀ m, lookupAssoc MODEL_PROVIDER_MAP m = none → strIncludes m "gpt" = false →
        strIncludes m "claude" = false → configGetProviderForModel m = "openai")
    ∧ (∀ e m, getActiveProviders e = [] →
        factoryGetProviderForModel e m = .error ("No active providers available for model: " ++ m))
    ∧ (∀ e m, getActiveProviders e ≠ [] → ∃ p, factoryGetProviderForModel e m = .ok p)
    ∧ (∀ e m pre c post, getActiveProviders e = pre ++ c :: post →
        (∀ cfg ∈ pre, m ∉ cfg.models) → m ∈ c.models →
        factoryGetProviderForModel e m = .ok c.name)
    ∧ (∀ e m pre c post, getActiveProviders e = pre ++ c :: post →
        (∀ cfg ∈ getActiveProviders e, m ∉ cfg.models) →
        (∀ cfg ∈ pre, strIncludes m cfg.name = false) → strIncludes m c.name = true →
        factoryGetProviderForModel e m = .ok c.name)
    ∧ (∀ e m c0, (∀ c ∈ getActiveProviders e, m ∉ c.models ∧ strIncludes m c.name = false) →
        (getActiveProviders e).head? = some c0 →
        factoryGetProviderForModel e m = .ok c0.name) := by
  refine ⟨?_, ?_, ?_, ?_, ?_, ?_, ?_, ?_, ?_⟩
  · intro m p h; simp [configGetProviderForModel, h]
  · intro m h hg; simp [configGetProviderForModel, h, hg]
  · intro m h hg hc; simp [configGetProviderForModel, h, hg, hc]
  · intro m h hg hc; simp [configGetProviderForModel, h, hg, hc]
  · intro e m h; simp [factoryGetProviderForModel, h]
  · intro e m h
    unfold factoryGetProviderForModel
    cases hfind1 : (getActiveProviders e).find? (fun config => m ∈ config.models) with
    | some c =>
      exact ⟨c.name, by
        simp only [hfind1]
        exact factoryCreate_of_mem_active e c (List.mem_of_find?_eq_some hfind1)⟩
    | none =>
      cases hfind2 : (getActiveProviders e).find? (fun config => strIncludes m config.name) with
      | some c =>
        exact ⟨c.name, by
          simp only [hfind1, hfind2]
          exact factoryCreate_of_mem_active e c (List.mem_of_find?_eq_some hfind2)⟩
      | none =>
        cases hhead : (getActiveProviders e).head? with
        | some c0 =>
          exact ⟨c0.name, by
            simp only [hfind1, hfind2, hhead]
            exact factoryCreate_of_mem_active e c0 (List.mem_of_mem_head? hhead)⟩
        | none =>
          exact absurd (List.head?_eq_none_iff.mp hhead) h
  · intro e m pre c post hsplit hpre hc
    have hfind1 : (getActiveProviders e).find? (fun config => m ∈ config.models) = some c := by
      rw [hsplit]
      apply find?_append_first
      · intro x hx
        simpa using hpre x hx
      · simpa using hc
    unfold factoryGetProviderForModel
    simp only [hfind1]
    exact factoryCreate_of_mem_active e c (List.mem_of_find?_eq_some hfind1)
  · intro e m pre c post hsplit hnone hpre hc
    have hfind1 : (getActiveProviders e).find? (fun config => m ∈ config.models) = none := by
      rw [List.find?_eq_none]
      intro x hx
      simpa using hnone x hx
    have hfind2 : (getActiveProviders e).find? (fun config => strIncludes m config.name)
        = some c := by
      rw [hsplit]
      apply find?_append_first
      · intro x hx
        exact hpre x hx
      · exact hc
    unfold factoryGetProviderForModel
    simp only [hfind1, hfind2]
    exact factoryCreate_of_mem_active e c (List.mem_of_find?_eq_some hfind2)
  · intro e m c0 hnone hhead
    have hfind1 : (getActiveProviders e).find? (fun config => m ∈ config.models) = none := by
      rw [List.find?_eq_none]
      intro c hc
      simpa using (hnone c hc).1
    have hfind2 : (getActiveProviders e).find? (fun config => strIncludes m config.name) = none := by
      rw [List.find?_eq_none]
      intro c hc
      simpa using (hnone c hc).2
    unfold factoryGetProviderForModel
    simp only [hfind1, hfind2, hhead]
    exact factoryCreate_of_mem_active e c0 (List.mem_of_mem_head? hhead)

/-- C2 counterexample: the model `claude-3.5` contains `claude` and the
Anthropic provider is active, yet the adapter resolver routes it to the
OpenAI-style adapter (the fuzzy step matches provider NAMES, and the
first-active fallback picks openai). -/
theorem provider_resolution_counterexample :
    strIncludes "claude-3.5" "claude" = true
    ∧ (anthropicConfig envBoth).isActive = true
    ∧ factoryGetProviderForModel envBoth "claude-3.5" = .ok "openai"
    ∧ "openai" ≠ "anthropic" :=
  ⟨rfl, rfl, rfl, by decide⟩

/-- C2 witness: each hypothesis-bearing conjunct at a concrete input.  In
particular the exact-match step routes `claude-3-haiku-20240307` PAST the
first active provider (openai) to anthropic, whose model list contains it,
and the name-substring step routes `anthropic-new-model` to anthropic. -/
theorem provider_resolution_amended_witness :
    configGetProviderForModel "claude" = "anthropic"
    ∧ configGetProviderForModel "gpt-5" = "openai"
    ∧ factoryGetProviderForModel { : Env} "gpt-4" =
        .error ("No active providers available for model: " ++ "gpt-4")
    ∧ (∃ p, factoryGetProviderForModel envBoth "gpt-4" = .ok p)
    ∧ factoryGetProviderForModel envBoth "claude-3-haiku-20240307" =
        .ok (anthropicConfig envBoth).name
    ∧ factoryGetProviderForModel envBoth "anthropic-new-model" =
        .ok (anthropicConfig envBoth).name
    ∧ factoryGetProviderForModel envBoth "mistral-7b" = .ok (openaiConfig envBoth).name :=
  ⟨provider_resolution_amended.1 "claude" "anthropic" rfl,
   provider_resolution_amended.2.1 "gpt-5" rfl rfl,
   provider_resolution_amended.2.2.2.2.1 { : Env} "gpt-4" rfl,
   provider_resolution_amended.2.2.2.2.2.1 envBoth "gpt-4" (by decide),
   provider_resolution_amended.2.2.2.2.2.2.1 envBoth "claude-3-haiku-20240307"
     [openaiConfig envBoth] (anthropicConfig envBoth) [] rfl (by decide) (by decide),
   provider_resolution_amended.2.2.2.2.2.2.2.1 envBoth "anthropic-new-model"
     [openaiConfig envBoth] (anthropicConfig envBoth) [] rfl (by decide) (by decide) (by decide),
   provider_resolution_amended.2.2.2.2.2.2.2.2 envBoth "mistral-7b" (openaiConfig envBoth)
     (by decide) rfl⟩

/-! ## Claim C7 — max_tokens validation boundaries -/

/-- C7 (amended): shared validation rejects any NONZERO `max_tokens`
outside `[1, 100000]` (the value `0` slips through the truthiness-guarded
range checks); `100000` is accepted and `100001` rejected; the Anthropic
adapter rejects an absent (or zero, both falsy) `max_tokens` and any value
above 4096, so `4097` is rejected. -/
theorem max_tokens_validation_boundaries :
    (∀ cfg req (v : ℚ), req.max_tokens = some v → v ≠ 0 → (v < 1 ∨ 100000 < v) →
      ∃ er, baseValidateRequest cfg req = .error er)
    ∧ baseValidateRequest (openaiConfig envOpenAI) (simpleReq (some 100000)) = .ok ()
    ∧ baseValidateRequest (openaiConfig envOpenAI) (simpleReq (some 100001)) =
        .error "max_tokens cannot exceed 100000"
    ∧ (∀ cfg req, req.max_tokens = none ∨ req.max_tokens = some 0 →
        ∃ er, anthropicValidateRequest cfg req = .error er)
    ∧ (∀ cfg req (v : ℚ), req.max_tokens = some v → 4096 < v →
        ∃ er, anthropicValidateRequest cfg req = .error er)
    ∧ anthropicValidateRequest (anthropicConfig envBoth) (simpleReq none) =
        .error "max_tokens is required for Anthropic"
    ∧ anthropicValidateRequest (anthropicConfig envBoth) (simpleReq (some 4097)) =
        .error "max_tokens cannot exceed 4096 for Anthropic" := by
  refine ⟨?_, rfl, rfl, ?_, ?_, rfl, rfl⟩
  · intro cfg req v hmt hv0 hrange
    unfold baseValidateRequest
    split_ifs with h1 h2 h3 h4 h5 h6 h7 <;> try exact ⟨_, rfl⟩
    exfalso
    rw [hmt] at h4 h5
    have ht : truthyNum (some v) = true := by simp [truthyNum, hv0]
    rcases hrange with h | h
    · exact h4 ⟨ht, by simpa using h⟩
    · exact h5 ⟨ht, by simpa using h⟩
  · intro cfg req h
    unfold anthropicValidateRequest
    cases hb : baseValidateRequest cfg req with
    | error e => exact ⟨e, rfl⟩
    | ok u =>
      split_ifs with h1 h2 h3 h4 h5 h6 h7 <;> try exact ⟨_, rfl⟩
      exfalso
      rcases h with h | h <;> simp [truthyNum, h] at h6
  · intro cfg req v hmt hv
    unfold anthropicValidateRequest
    cases hb : baseValidateRequest cfg req with
    | error e => exact ⟨e, rfl⟩
    | ok u =>
      split_ifs with h1 h2 h3 h4 h5 h6 h7 <;> try exact ⟨_, rfl⟩
      exfalso
      rw [hmt] at h7
      simp only [Option.getD_some, gt_iff_lt, not_lt] at h7
      exact absurd hv (not_lt.mpr h7)

/-- C7 counterexample: `max_tokens = 0` lies outside `[1, 100000]`, yet
shared adapter validation accepts the request (`0` is falsy, so both range
checks are skipped). -/
theorem max_tokens_zero_accepted_counterexample :
    baseValidateRequest (openaiConfig envOpenAI) (simpleReq (some 0)) = .ok ()
    ∧ ((0 : ℚ) < 1) :=
  ⟨rfl, by norm_num⟩

/-- C7 witness: the three universally quantified rejection conjuncts at
concrete requests. -/
theorem max_tokens_validation_boundaries_witness :
    (∃ er, baseValidateRequest (openaiConfig envOpenAI) (simpleReq (some 100001)) = .error er)
    ∧ (∃ er, anthropicValidateRequest (anthropicConfig envBoth) (simpleReq none) = .error er)
    ∧ (∃ er, anthropicValidateRequest (anthropicConfig envBoth) (simpleReq (some 4097)) = .error er) :=
  ⟨max_tokens_validation_boundaries.1 (openaiConfig envOpenAI) (simpleReq (some 100001)) 100001
     rfl (by norm_num) (Or.inr (by norm_num)),
   max_tokens_validation_boundaries.2.2.2.1 (anthropicConfig envBoth) (simpleReq none) (Or.inl rfl),
   max_tokens_validation_boundaries.2.2.2.2.1 (anthropicConfig envBoth) (simpleReq (some 4097))
     4097 rfl (by norm_num)⟩

/-! ## Claims C4 / C9 / C5 — Anthropic transformation -/

/-- The texts of string-content system messages, in order (specification
side: these are the only messages that can reach the `system` field). -/
def systemTextOnly (msgs : List OpenAIMessage) : List String :=
  msgs.filterMap (fun m =>
    if m.role = "system" then
      match m.content with
      | .str s => some s
      | _ => none
    else none)

/-- The JS accumulation `sys += (sys ? sep : '') + s` over a list. -/
def jsJoinNonEmpty (acc : String) : List String → String
  | [] => acc
  | s :: rest => jsJoinNonEmpty (acc ++ (if acc ≠ "" then "\n\n" else "") ++ s) rest

/-- The message loop equals: JS-joined string-content system texts, and
the transforms of exactly the `user`/`assistant` messages. -/
theorem anthropicCollectAux_spec (msgs : List OpenAIMessage) (sys : String) :
    anthropicCollectAux sys msgs =
      (jsJoinNonEmpty sys (systemTextOnly msgs),
       (msgs.filter (fun m => m.role = "user" ∨ m.role = "assistant")).map
         anthropicTransformMessage) := by
  induction msgs generalizing sys with
  | nil => simp [anthropicCollectAux, systemTextOnly, jsJoinNonEmpty]
  | cons m rest ih =>
    by_cases hs : m.role = "system"
    · have hfilter : (m.role = "user" ∨ m.role = "assistant") = False := by
        simp [hs]
      cases hc : m.content with
      | str s =>
        simp only [anthropicCollectAux, hs, if_true, hc, ih, systemTextOnly,
          List.filterMap_cons, List.filter_cons, hfilter]
        simp [jsJoinNonEmpty, hs, hc]
      | parts ps =>
        simp only [anthropicCollectAux, hs, if_true, hc, ih, systemTextOnly,
          List.filterMap_cons, List.filter_cons, hfilter]
        simp [hs, hc]
      | nullContent =>
        simp only [anthropicCollectAux, hs, if_true, hc, ih, systemTextOnly,
          List.filterMap_cons, List.filter_cons, hfilter]
        simp [hs, hc]
    · by_cases hu : m.role = "user" ∨ m.role = "assistant"
      · simp only [anthropicCollectAux, hs, if_false, hu, if_true, ih, systemTextOnly,
          List.filterMap_cons, List.filter_cons]
        simp [hs, hu]
      · simp only [anthropicCollectAux, hs, if_false, hu, if_true, ih, systemTextOnly,
          List.filterMap_cons, List.filter_cons]
        simp [hs, hu]

/-- Shape of a successful Anthropic `transformRequest`: messages are the
transformed `user`/`assistant` messages and the system field is the JS
join of string-content system texts. -/
theorem anthropicTransformRequest_shape :
    ∀ cfg req msgs, req.messages = some msgs →
      ∃ ar, anthropicTransformRequest cfg req = .ok ar
        ∧ ar.messages = (msgs.filter (fun m => m.role = "user" ∨ m.role = "assistant")).map
            anthropicTransformMessage
        ∧ ar.system = (if jsJoinNonEmpty "" (systemTextOnly msgs) ≠ "" then
            some (jsJoinNonEmpty "" (systemTextOnly msgs)) else none) := by
  intro cfg req msgs hm
  unfold anthropicTransformRequest
  simp only [hm, anthropicCollectAux_spec]
  cases ht : req.tools with
  | none => exact ⟨_, rfl, rfl, rfl⟩
  | some ts =>
    cases htc : req.tool_choice with
    | none => exact ⟨_, rfl, rfl, rfl⟩
    | some tc =>
      cases tc with
      | tcNone => exact ⟨_, rfl, rfl, rfl⟩
      | tcAuto => exact ⟨_, rfl, rfl, rfl⟩
      | tcFunction f => exact ⟨_, rfl, rfl, rfl⟩

/-- C9: in the Anthropic adapter's `transformRequest`, every `tool`-role
message is omitted from the upstream payload, array-content system
messages contribute nothing to the concatenated `system` field, and both
are dropped silently (the transform still succeeds). -/
theorem anthropic_drops_tool_and_array_system :
    ∀ cfg req msgs, req.messages = some msgs →
      ∃ ar, anthropicTransformRequest cfg req = .ok ar
        ∧ ar.messages = (msgs.filter (fun m => m.role = "user" ∨ m.role = "assistant")).map
            anthropicTransformMessage
        ∧ ar.system = (if jsJoinNonEmpty "" (systemTextOnly msgs) ≠ "" then
            some (jsJoinNonEmpty "" (systemTextOnly msgs)) else none) :=
  anthropicTransformRequest_shape

/-- C9 witness: a request carrying a `tool` message and an array-content
system message; both disappear without an error. -/
theorem anthropic_drops_tool_and_array_system_witness :
    ∃ ar, anthropicTransformRequest (anthropicConfig envBoth)
        { messages := some
            [ { role := "system", content := .parts [.textPart (some "sys part")] }
            , { role := "tool", content := .str "result", tool_call_id := some "c1" }
            , { role := "user", content := .str "hi" } ] } = .ok ar
      ∧ ar.messages = [⟨"user", .str "hi"⟩]
      ∧ ar.system = none := by
  obtain ⟨ar, h1, h2, h3⟩ := anthropic_drops_tool_and_array_system (anthropicConfig envBoth)
    { messages := some
        [ { role := "system", content := .parts [.textPart (some "sys part")] }
        , { role := "tool", content := .str "result", tool_call_id := some "c1" }
        , { role := "user", content := .str "hi" } ] } _ rfl
  exact ⟨ar, h1, by rw [h2]; rfl, by rw [h3]; rfl⟩

/-- C4: with non-empty `tools`, the Anthropic adapter maps `tool_choice`
`auto` to an auto directive, an explicit function choice to a named-tool
directive, and `none` to a payload with NO tools field at all. -/
theorem anthropic_tool_choice_mapping :
    ∀ cfg req msgs ts, req.messages = some msgs → req.tools = some ts → ts ≠ [] →
      (req.tool_choice = some .tcAuto →
        ∃ ar, anthropicTransformRequest cfg req = .ok ar
          ∧ ar.tools = some (ts.map (fun t => ⟨t.fnName, t.fnDescription, t.fnParameters⟩))
          ∧ ar.tool_choice = some ⟨"auto", none⟩)
      ∧ (∀ f, req.tool_choice = some (.tcFunction f) →
        ∃ ar, anthropicTransformRequest cfg req = .ok ar
          ∧ ar.tools = some (ts.map (fun t => ⟨t.fnName, t.fnDescription, t.fnParameters⟩))
          ∧ ar.tool_choice = some ⟨"tool", some f⟩)
      ∧ (req.tool_choice = some .tcNone →
        ∃ ar, anthropicTransformRequest cfg req = .ok ar
          ∧ ar.tools = none
          ∧ ar.tool_choice = none) := by
  intro cfg req msgs ts hm ht _
  refine ⟨?_, ?_, ?_⟩
  · intro htc
    unfold anthropicTransformRequest
    simp only [hm, ht, htc]
    exact ⟨_, rfl, rfl, rfl⟩
  · intro f htc
    unfold anthropicTransformRequest
    simp only [hm, ht, htc]
    exact ⟨_, rfl, rfl, rfl⟩
  · intro htc
    unfold anthropicTransformRequest
    simp only [hm, ht, htc]
    exact ⟨_, rfl, rfl, rfl⟩

/-- The C4 scenario request: `claude-3-haiku-20240307`, one user text
message, non-empty tools, `tool_choice: "none"`. -/
def c4Req : OpenAIRequest :=
  { messages := some [{ role := "user", content := .str "hello" }]
  , model := some "claude-3-haiku-20240307"
  , max_tokens := some 100
  , tools := some [{ ttype := "function", fnName := "get_weather", fnParameters := ⟨"schema"⟩ }]
  , tool_choice := some .tcNone }

/-- C4 witness: the scenario payload has no tools field and no tool_choice
directive. -/
theorem anthropic_tool_choice_mapping_witness :
    ∃ ar, anthropicTransformRequest (anthropicConfig envBoth) c4Req = .ok ar
      ∧ ar.tools = none
      ∧ ar.tool_choice = none :=
  (anthropic_tool_choice_mapping (anthropicConfig envBoth) c4Req _ _ rfl rfl
    (by decide)).2.2 rfl

/-- Plain concatenation of a list of strings (specification side). -/
def concatTexts : List String → String
  | [] => ""
  | s :: rest => s ++ concatTexts rest

/-- The response fold over pure text blocks appends their concatenation
and collects no tool calls. -/
theorem anthropic_fold_texts (ts : List String) (acc : String × List ToolCall) :
    ((ts.map (fun t => AnthRespBlock.textBlock (some t))).foldl
      (fun (acc : String × List ToolCall) item =>
        match item with
        | .textBlock t => (acc.1 ++ t.getD "", acc.2)
        | .toolUse id name input =>
          (acc.1, acc.2 ++ [⟨(if truthyStr id then id.getD "" else "call_" ++ toString 0),
                             name.getD "", jsonStringifyObj input⟩])) acc)
      = (acc.1 ++ concatTexts ts, acc.2) := by
  induction ts generalizing acc with
  | nil => simp [concatTexts]
  | cons t rest ih =>
    simp only [List.map_cons, List.foldl_cons, Option.getD_some, ih, concatTexts]
    rw [String.append_assoc]

/-- C5 (amended): the Anthropic round-trip preserves text exactly on both
legs — the single user message's text reaches the upstream payload
unchanged, and the concatenated text blocks of a synthetic upstream
response become the canonical message content — PROVIDED the concatenated
response text is non-empty (an all-empty concatenation yields a `null`
content instead of the empty string). -/
theorem anthropic_text_roundtrip :
    (∀ cfg req m s, req.messages = some [m] → m.role = "user" → m.content = .str s →
      ∃ ar, anthropicTransformRequest cfg req = .ok ar
        ∧ ar.messages = [⟨"user", .str s⟩])
    ∧ (∀ (resp : AnthropicResponse) (ts : List String),
        resp.content = ts.map (fun t => AnthRespBlock.textBlock (some t)) →
        concatTexts ts ≠ "" →
        ∃ c, (anthropicTransformResponse resp 0).choices = [c]
          ∧ c.message.role = "assistant"
          ∧ c.message.content = some (concatTexts ts)
          ∧ c.message.tool_calls = none) := by
  constructor
  · intro cfg req m s hm hrole hcontent
    obtain ⟨ar, h1, h2, h3⟩ := anthropicTransformRequest_shape cfg req [m] hm
    refine ⟨ar, h1, ?_⟩
    rw [h2]
    simp [hrole, anthropicTransformMessage, hcontent]
  · intro resp ts hcontent hne
    unfold anthropicTransformResponse
    rw [hcontent, anthropic_fold_texts]
    have hempty : ("" : String) ++ concatTexts ts = concatTexts ts := by
      simp
    rw [hempty]
    refine ⟨_, rfl, rfl, ?_, ?_⟩
    · simp only [ne_eq, hne, not_false_eq_true, if_true]
    · simp

/-- A synthetic upstream response whose only text block is empty. -/
def emptyTextResp : AnthropicResponse :=
  { id := "msg_1", model := "claude-3-haiku-20240307"
  , content := [.textBlock (some "")]
  , stop_reason := "end_turn", usage := ⟨1, 0⟩ }

/-- C5 counterexample: with a single empty text block the canonical
message content is `null`, not the (empty) concatenated text — so the
round-trip does not preserve text content exactly in this case. -/
theorem anthropic_text_roundtrip_counterexample :
    (anthropicTransformResponse emptyTextResp 0).choices.map (fun c => c.message.content) = [none]
    ∧ (none : Option String) ≠ some "" :=
  ⟨rfl, by decide⟩

/-- C5 witness: both legs at concrete inputs with non-empty text. -/
theorem anthropic_text_roundtrip_witness :
    (∃ ar, anthropicTransformRequest (anthropicConfig envBoth)
        { messages := some [{ role := "user", content := .str "hello there" }]
        , max_tokens := some 10 } = .ok ar
      ∧ ar.messages = [⟨"user", .str "hello there"⟩])
    ∧ (∃ c, (anthropicTransformResponse
        { id := "msg_2", model := "claude-3-haiku-20240307"
        , content := [.textBlock (some "Hi"), .textBlock (some " there")]
        , stop_reason := "end_turn", usage := ⟨1, 2⟩ } 0).choices = [c]
      ∧ c.message.role = "assistant"
      ∧ c.message.content = some (concatTexts ["Hi", " there"])
      ∧ c.message.tool_calls = none) :=
  ⟨anthropic_text_roundtrip.1 (anthropicConfig envBoth)
      { messages := some [{ role := "user", content := .str "hello there" }]
      , max_tokens := some 10 } _ "hello there" rfl rfl rfl,
   anthropic_text_roundtrip.2
      { id := "msg_2", model := "claude-3-haiku-20240307"
      , content := [.textBlock (some "Hi"), .textBlock (some " there")]
      , stop_reason := "end_turn", usage := ⟨1, 2⟩ } ["Hi", " there"] rfl (by decide)⟩

/-! ## Claim C10 — token estimator lower bounds -/

/-- Character-count token pieces are nonnegative. -/
theorem lenDiv4_nonneg (s : String) : 0 ≤ lenDiv4 s := by
  unfold lenDiv4 jsCeil
  have h : (0 : ℚ) ≤ (s.length : ℚ) / 4 := by positivity
  exact_mod_cast Int.ceil_nonneg h

/-- Word-count token pieces are nonnegative. -/
theorem wordTokens_nonneg (s : String) : 0 ≤ wordTokens s := by
  unfold wordTokens jsCeil
  have h : (0 : ℚ) ≤ (jsSplitWsCount s : ℚ) * 0.75 := by positivity
  exact_mod_cast Int.ceil_nonneg h

/-- Per-message OpenAI estimator contributions are nonnegative. -/
theorem openaiMessageTokens_nonneg (m : OpenAIMessage) : 0 ≤ openaiMessageTokens m := by
  unfold openaiMessageTokens
  have hcontent : (0 : ℚ) ≤ (match m.content with
     | .str s => wordTokens s
     | .parts ps =>
       (ps.map (fun p => match p with
         | .textPart t => if truthyStr t then wordTokens (t.getD "") else 0
         | .imagePart _ detail =>
           if (if truthyStr detail then detail.getD "" else "auto") = "high" then 765 else 85)).sum
     | .nullContent => 0) := by
    cases m.content with
    | str s => exact wordTokens_nonneg s
    | parts ps =>
      apply List.sum_nonneg
      intro x hx
      obtain ⟨p, _, rfl⟩ := List.mem_map.mp hx
      cases p with
      | textPart t =>
        by_cases ht : truthyStr t = true
        · simpa [ht] using wordTokens_nonneg (t.getD "")
        · simp [ht]
      | imagePart u d => dsimp only; split_ifs <;> norm_num
    | nullContent => exact le_refl 0
  have hname : (0 : ℚ) ≤ (if truthyStr m.name then 1 else 0) := by split_ifs <;> norm_num
  have htc : (0 : ℚ) ≤ (match m.tool_calls with
     | some tcs => (tcs.map (fun tc => 3 + lenDiv4 tc.fnName + lenDiv4 tc.fnArguments)).sum
     | none => 0) := by
    cases m.tool_calls with
    | some tcs =>
      apply List.sum_nonneg
      intro x hx
      obtain ⟨tc, _, rfl⟩ := List.mem_map.mp hx
      have h1 := lenDiv4_nonneg tc.fnName
      have h2 := lenDiv4_nonneg tc.fnArguments
      linarith
    | none => exact le_refl 0
  linarith

/-- The base estimator splits into a nonnegative content part plus the
`max_tokens || 1000` term. -/
theorem baseEstimateTokens_split (req : OpenAIRequest) :
    ∃ a, 0 ≤ a ∧ baseEstimateTokens req =
      a + (if truthyNum req.max_tokens then req.max_tokens.getD 0 else 1000) := by
  refine ⟨_, ?_, rfl⟩
  apply add_nonneg
  · cases req.messages with
    | some ms =>
      apply List.sum_nonneg
      intro x hx
      obtain ⟨m, _, rfl⟩ := List.mem_map.mp hx
      cases m.content with
      | str s => exact lenDiv4_nonneg s
      | parts ps => exact le_refl 0
      | nullContent => exact le_refl 0
    | none => exact le_refl 0
  · split_ifs
    · exact lenDiv4_nonneg _
    · exact le_refl 0

/-- The OpenAI estimator splits the same way. -/
theorem openaiEstimateTokens_split (req : OpenAIRequest) :
    ∃ a, 0 ≤ a ∧ openaiEstimateTokens req =
      a + (if truthyNum req.max_tokens then req.max_tokens.getD 0 else 1000) := by
  refine ⟨_, ?_, rfl⟩
  have hmsgs : (0 : ℚ) ≤ (match req.messages with
     | some ms => (ms.map openaiMessageTokens).sum
     | none => 0) := by
    cases req.messages with
    | some ms =>
      apply List.sum_nonneg
      intro x hx
      obtain ⟨m, _, rfl⟩ := List.mem_map.mp hx
      exact openaiMessageTokens_nonneg m
    | none => exact le_refl 0
  have htools : (0 : ℚ) ≤ (match req.tools with
     | some ts =>
       (ts.map (fun t => 3 + lenDiv4 t.fnName
         + (if truthyStr t.fnDescription then lenDiv4 (t.fnDescription.getD "") else 0)
         + lenDiv4 t.fnParameters.repr)).sum
     | none => 0) := by
    cases req.tools with
    | some ts =>
      apply List.sum_nonneg
      intro x hx
      obtain ⟨t, _, rfl⟩ := List.mem_map.mp hx
      have h1 := lenDiv4_nonneg t.fnName
      have h2 := lenDiv4_nonneg t.fnParameters.repr
      have h3 : (0 : ℚ) ≤ (if truthyStr t.fnDescription then lenDiv4 (t.fnDescription.getD "") else 0) := by
        split_ifs
        · exact lenDiv4_nonneg _
        · exact le_refl 0
      linarith
    | none => exact le_refl 0
  linarith

/-- The middleware estimator splits the same way when a body is present. -/
theorem estimateTokenUsage_split (req : OpenAIRequest) :
    ∃ a, 0 ≤ a ∧ estimateTokenUsage (some req) =
      a + (if truthyNum req.max_tokens then req.max_tokens.getD 0 else 1000) := by
  refine ⟨_, ?_, rfl⟩
  apply add_nonneg
  · cases req.messages with
    | some ms =>
      apply List.sum_nonneg
      intro x hx
      obtain ⟨m, _, rfl⟩ := List.mem_map.mp hx
      cases m.content with
      | str s =>
        dsimp only
        split_ifs
        · exact lenDiv4_nonneg s
        · exact le_refl 0
      | parts ps => exact le_refl 0
      | nullContent => exact le_refl 0
    | none => exact le_refl 0
  · split_ifs
    · exact lenDiv4_nonneg _
    · exact le_refl 0

/-- Facts about the `max_tokens || 1000` term. -/
theorem maxTokensTerm_facts (mt : Option ℚ) :
    (∀ v, mt = some v → v ≤ (if truthyNum mt then mt.getD 0 else 1000))
    ∧ (mt = none → (if truthyNum mt then mt.getD 0 else 1000) = 1000)
    ∧ ((mt = none ∨ ∃ v, mt = some v ∧ 0 ≤ v) →
        0 < (if truthyNum mt then mt.getD 0 else 1000)) := by
  rcases mt with _ | v
  · refine ⟨?_, ?_, ?_⟩
    · intro w hw
      cases hw
    · intro _
      simp [truthyNum]
    · intro _
      simp only [truthyNum, Bool.false_eq_true, if_false]
      norm_num
  · by_cases hv : v = 0
    · subst hv
      have hf : truthyNum (some (0 : ℚ)) = false := by simp [truthyNum]
      refine ⟨?_, ?_, ?_⟩
      · intro w hw
        injection hw with hw'
        subst hw'
        simp only [hf, Bool.false_eq_true, if_false]
        norm_num
      · intro h
        cases h
      · intro _
        simp only [hf, Bool.false_eq_true, if_false]
        norm_num
    · have ht : truthyNum (some v) = true := by simp [truthyNum, hv]
      refine ⟨?_, ?_, ?_⟩
      · intro w hw
        injection hw with hw'
        subst hw'
        simp [ht]
      · intro h
        cases h
      · rintro (h | ⟨w, hw, h0⟩)
        · cases h
        · injection hw with hw'
          subst hw'
          simp only [ht, if_true, Option.getD_some]
          exact lt_of_le_of_ne h0 (Ne.symm hv)

/-- C10 (amended): every estimator returns at least `max_tokens` when it
is present and at least 1000 when it is absent; the estimate is strictly
positive whenever `max_tokens` is absent or nonnegative (a negative
`max_tokens`, never accepted by validation but unchecked here, drives the
estimates negative). -/
theorem token_estimators_lower_bounds :
    (∀ req (v : ℚ), req.max_tokens = some v →
      v ≤ baseEstimateTokens req ∧ v ≤ openaiEstimateTokens req
        ∧ v ≤ estimateTokenUsage (some req))
    ∧ (∀ req, req.max_tokens = none →
      (1000 : ℚ) ≤ baseEstimateTokens req ∧ (1000 : ℚ) ≤ openaiEstimateTokens req
        ∧ (1000 : ℚ) ≤ estimateTokenUsage (some req))
    ∧ (∀ req, (req.max_tokens = none ∨ ∃ v, req.max_tokens = some v ∧ 0 ≤ v) →
      0 < baseEstimateTokens req ∧ 0 < openaiEstimateTokens req
        ∧ 0 < estimateTokenUsage (some req)) := by
  have hsplits : ∀ req : OpenAIRequest,
      (∃ a, 0 ≤ a ∧ baseEstimateTokens req =
        a + (if truthyNum req.max_tokens then req.max_tokens.getD 0 else 1000))
      ∧ (∃ a, 0 ≤ a ∧ openaiEstimateTokens req =
        a + (if truthyNum req.max_tokens then req.max_tokens.getD 0 else 1000))
      ∧ (∃ a, 0 ≤ a ∧ estimateTokenUsage (some req) =
        a + (if truthyNum req.max_tokens then req.max_tokens.getD 0 else 1000)) :=
    fun req => ⟨baseEstimateTokens_split req, openaiEstimateTokens_split req,
      estimateTokenUsage_split req⟩
  refine ⟨?_, ?_, ?_⟩
  · intro req v hv
    obtain ⟨⟨a1, ha1, he1⟩, ⟨a2, ha2, he2⟩, ⟨a3, ha3, he3⟩⟩ := hsplits req
    have hterm := (maxTokensTerm_facts req.max_tokens).1 v hv
    exact ⟨by rw [he1]; linarith, by rw [he2]; linarith, by rw [he3]; linarith⟩
  · intro req hn
    obtain ⟨⟨a1, ha1, he1⟩, ⟨a2, ha2, he2⟩, ⟨a3, ha3, he3⟩⟩ := hsplits req
    have hterm := (maxTokensTerm_facts req.max_tokens).2.1 hn
    exact ⟨by rw [he1, hterm]; linarith, by rw [he2, hterm]; linarith,
      by rw [he3, hterm]; linarith⟩
  · intro req h
    obtain ⟨⟨a1, ha1, he1⟩, ⟨a2, ha2, he2⟩, ⟨a3, ha3, he3⟩⟩ := hsplits req
    have hterm := (maxTokensTerm_facts req.max_tokens).2.2 h
    exact ⟨by rw [he1]; linarith, by rw [he2]; linarith, by rw [he3]; linarith⟩

/-- A request body with an (invalid but representable) negative
`max_tokens`. -/
def negReq : OpenAIRequest := { messages := some [], max_tokens := some (-10) }

/-- C10 counterexample: with `max_tokens = -10` and an empty message list
all three estimators return nonpositive values, refuting "the pre-flight
token estimate is always strictly positive". -/
theorem token_estimator_positive_counterexample :
    baseEstimateTokens negReq = -10
    ∧ openaiEstimateTokens negReq = -7
    ∧ estimateTokenUsage (some negReq) = -10
    ∧ ¬(0 < (-10 : ℚ)) ∧ ¬(0 < (-7 : ℚ)) := by
  refine ⟨?_, ?_, ?_, by norm_num, by norm_num⟩ <;>
    norm_num [baseEstimateTokens, openaiEstimateTokens, estimateTokenUsage, negReq,
      truthyNum, truthyStr]

/-- C10 witness: the three conjuncts at concrete requests. -/
theorem token_estimators_lower_bounds_witness :
    ((10 : ℚ) ≤ baseEstimateTokens (simpleReq (some 10))
      ∧ (10 : ℚ) ≤ openaiEstimateTokens (simpleReq (some 10))
      ∧ (10 : ℚ) ≤ estimateTokenUsage (some (simpleReq (some 10))))
    ∧ ((1000 : ℚ) ≤ baseEstimateTokens (simpleReq none)
      ∧ (1000 : ℚ) ≤ openaiEstimateTokens (simpleReq none)
      ∧ (1000 : ℚ) ≤ estimateTokenUsage (some (simpleReq none)))
    ∧ (0 < baseEstimateTokens (simpleReq (some 10))
      ∧ 0 < openaiEstimateTokens (simpleReq (some 10))
      ∧ 0 < estimateTokenUsage (some (simpleReq (some 10)))) :=
  ⟨token_estimators_lower_bounds.1 (simpleReq (some 10)) 10 rfl,
   token_estimators_lower_bounds.2.1 (simpleReq none) rfl,
   token_estimators_lower_bounds.2.2 (simpleReq (some 10))
     (Or.inr ⟨10, rfl, by norm_num⟩)⟩

/-! ## Claim C8 — header merge policy -/

/-- Writing a different key leaves a lookup unchanged. -/
theorem objGet_objSet_ne (m : List (String × String)) (k' k v : String) (h : k' ≠ k) :
    objGet (objSet m k' v) k = objGet m k := by
  induction m with
  | nil => simp [objSet, objGet, h]
  | cons p rest ih =>
    obtain ⟨a, b⟩ := p
    by_cases ha : a = k'
    · subst ha
      simp [objSet, objGet, h]
    · simp only [objSet, ha, if_false, objGet]
      by_cases hak : a = k
      · simp [hak]
      · simp [hak, ih]

/-- Deleting a different key leaves a lookup unchanged. -/
theorem objGet_objDelete_ne (m : List (String × String)) (k' k : String) (h : k' ≠ k) :
    objGet (objDelete m k') k = objGet m k := by
  induction m with
  | nil => rfl
  | cons p rest ih =>
    obtain ⟨a, b⟩ := p
    by_cases ha : a = k'
    · subst ha
      have hak : a ≠ k := h
      simp [objDelete, objGet, hak, ih]
    · by_cases hak : a = k
      · simp [objDelete, objGet, ha, hak, Ne.symm h]
      · simp [objDelete, objGet, ha, hak, ih]

/-- Deleting a key removes it. -/
theorem objGet_objDelete_self (m : List (String × String)) (k : String) :
    objGet (objDelete m k) k = none := by
  induction m with
  | nil => rfl
  | cons p rest ih =>
    obtain ⟨a, b⟩ := p
    by_cases ha : a = k
    · simp [objDelete, ha, ih]
    · simp [objDelete, objGet, ha, ih]

/-- The Anthropic merge loop never changes a key whose lowercasing is a
credential header name. -/
theorem anthropicMergeFold_preserves (user : List (String × HeaderVal))
    (acc : List (String × String)) (k : String)
    (hk : jsToLower k = "x-api-key" ∨ jsToLower k = "authorization") :
    objGet (user.foldl
      (fun acc kv =>
        if jsToLower kv.1 = "x-api-key" ∨ jsToLower kv.1 = "authorization" then acc
        else match kv.2 with
          | .arr l => objSet acc kv.1 (String.intercalate ", " l)
          | .str s => objSet acc kv.1 s
          | .undef => acc) acc) k = objGet acc k := by
  induction user generalizing acc with
  | nil => rfl
  | cons kv rest ih =>
    by_cases hskip : jsToLower kv.1 = "x-api-key" ∨ jsToLower kv.1 = "authorization"
    · simp only [List.foldl_cons, hskip, if_true]
      exact ih acc
    · have hne : kv.1 ≠ k := by
        intro heq
        rw [heq] at hskip
        exact hskip hk
      simp only [List.foldl_cons, hskip, if_false]
      cases hv : kv.2 with
      | arr l => rw [ih]; exact objGet_objSet_ne acc kv.1 k _ hne
      | str s => rw [ih]; exact objGet_objSet_ne acc kv.1 k _ hne
      | undef => exact ih acc

/-- The OpenAI merge loop (swapped comparison order) never changes a key
whose lowercasing is a credential header name. -/
theorem openaiMergeFold_preserves (user : List (String × HeaderVal))
    (acc : List (String × String)) (k : String)
    (hk : jsToLower k = "authorization" ∨ jsToLower k = "x-api-key") :
    objGet (user.foldl
      (fun acc kv =>
        if jsToLower kv.1 = "authorization" ∨ jsToLower kv.1 = "x-api-key" then acc
        else match kv.2 with
          | .arr l => objSet acc kv.1 (String.intercalate ", " l)
          | .str s => objSet acc kv.1 s
          | .undef => acc) acc) k = objGet acc k := by
  induction user generalizing acc with
  | nil => rfl
  | cons kv rest ih =>
    by_cases hskip : jsToLower kv.1 = "authorization" ∨ jsToLower kv.1 = "x-api-key"
    · simp only [List.foldl_cons, hskip, if_true]
      exact ih acc
    · have hne : kv.1 ≠ k := by
        intro heq
        rw [heq] at hskip
        exact hskip hk
      simp only [List.foldl_cons, hskip, if_false]
      cases hv : kv.2 with
      | arr l => rw [ih]; exact objGet_objSet_ne acc kv.1 k _ hne
      | str s => rw [ih]; exact objGet_objSet_ne acc kv.1 k _ hne
      | undef => exact ih acc

/-- C8 (amended): both merges discard caller-supplied `x-api-key` /
`Authorization` headers in ANY letter casing, so the credential header of
the merged set always equals the adapter's own configured credential, and
neither merge lets the caller introduce the other adapter's credential
header; the `Host` removal, however, only covers the exact spellings
`Host` and `host`. -/
theorem mergeHeaders_credential_policy :
    (∀ cfg user, objGet (anthropicMergeHeaders (anthropicGetHeaders cfg) user) "x-api-key" =
        some cfg.apiKey)
    ∧ (∀ cfg e user, objGet (openaiMergeHeaders (openaiGetHeaders cfg e) user) "Authorization" =
        some ("Bearer " ++ cfg.apiKey))
    ∧ (∀ cfg user, objGet (anthropicMergeHeaders (anthropicGetHeaders cfg) user) "Authorization" =
        none)
    ∧ (∀ cfg e user, objGet (openaiMergeHeaders (openaiGetHeaders cfg e) user) "x-api-key" =
        none)
    ∧ (∀ base user, objGet (anthropicMergeHeaders base user) "Host" = none
        ∧ objGet (anthropicMergeHeaders base user) "host" = none)
    ∧ (∀ base user, objGet (openaiMergeHeaders base user) "Host" = none
        ∧ objGet (openaiMergeHeaders base user) "host" = none) := by
  have hHostNe : ("host" : String) ≠ "Host" := by decide
  have hHost2 : ("Host" : String) ≠ "x-api-key" := by decide
  have hhost2 : ("host" : String) ≠ "x-api-key" := by decide
  have hHost3 : ("Host" : String) ≠ "Authorization" := by decide
  have hhost3 : ("host" : String) ≠ "Authorization" := by decide
  refine ⟨?_, ?_, ?_, ?_, ?_, ?_⟩
  · intro cfg user
    unfold anthropicMergeHeaders
    rw [objGet_objDelete_ne _ _ _ hhost2, objGet_objDelete_ne _ _ _ hHost2,
      anthropicMergeFold_preserves _ _ _ (Or.inl (by decide))]
    rfl
  · intro cfg e user
    unfold openaiMergeHeaders
    rw [objGet_objDelete_ne _ _ _ hhost3, objGet_objDelete_ne _ _ _ hHost3,
      openaiMergeFold_preserves _ _ _ (Or.inl (by decide))]
    unfold openaiGetHeaders
    split_ifs
    · rfl
    · rfl
  · intro cfg user
    unfold anthropicMergeHeaders
    rw [objGet_objDelete_ne _ _ _ hhost3, objGet_objDelete_ne _ _ _ hHost3,
      anthropicMergeFold_preserves _ _ _ (Or.inr (by decide))]
    rfl
  · intro cfg e user
    unfold openaiMergeHeaders
    rw [objGet_objDelete_ne _ _ _ hhost2, objGet_objDelete_ne _ _ _ hHost2,
      openaiMergeFold_preserves _ _ _ (Or.inr (by decide))]
    unfold openaiGetHeaders
    split_ifs
    · rfl
    · rfl
  · intro base user
    unfold anthropicMergeHeaders
    constructor
    · rw [objGet_objDelete_ne _ _ _ hHostNe]
      exact objGet_objDelete_self _ _
    · exact objGet_objDelete_self _ _
  · intro base user
    unfold openaiMergeHeaders
    constructor
    · rw [objGet_objDelete_ne _ _ _ hHostNe]
      exact objGet_objDelete_self _ _
    · exact objGet_objDelete_self _ _

/-- C8 counterexample: a caller header spelled `HOST` is a Host header
(its lowercasing is `host`) yet survives the merge, because only the exact
keys `Host` and `host` are deleted — refuting "any Host header is
discarded". -/
theorem mergeHeaders_host_casing_counterexample :
    jsToLower "HOST" = "host"
    ∧ objGet (anthropicMergeHeaders (anthropicGetHeaders (anthropicConfig envBoth))
        (some [("HOST", .str "evil.example")])) "HOST" = some "evil.example"
    ∧ objGet (openaiMergeHeaders (openaiGetHeaders (openaiConfig envBoth) envBoth)
        (some [("HOST", .str "evil.example")])) "HOST" = some "evil.example" :=
  ⟨by decide, rfl, rfl⟩

/-- C8 witness: the credential-preservation conjuncts against a caller who
tries to override credentials in mixed casing. -/
theorem mergeHeaders_credential_policy_witness :
    objGet (anthropicMergeHeaders (anthropicGetHeaders (anthropicConfig envBoth))
        (some [("X-Api-Key", .str "attacker"), ("AUTHORIZATION", .str "Bearer attacker")]))
      "x-api-key" = some (anthropicConfig envBoth).apiKey
    ∧ objGet (openaiMergeHeaders (openaiGetHeaders (openaiConfig envBoth) envBoth)
        (some [("X-Api-Key", .str "attacker"), ("AUTHORIZATION", .str "Bearer attacker")]))
      "Authorization" = some ("Bearer " ++ (openaiConfig envBoth).apiKey)
    ∧ objGet (anthropicMergeHeaders (anthropicGetHeaders (anthropicConfig envBoth))
        (some [("AUTHORIZATION", .str "Bearer attacker")])) "Authorization" = none
    ∧ objGet (openaiMergeHeaders (openaiGetHeaders (openaiConfig envBoth) envBoth)
        (some [("X-Api-Key", .str "attacker")])) "x-api-key" = none
    ∧ (objGet (anthropicMergeHeaders (anthropicGetHeaders (anthropicConfig envBoth))
        (some [("Host", .str "evil")])) "Host" = none
      ∧ objGet (anthropicMergeHeaders (anthropicGetHeaders (anthropicConfig envBoth))
        (some [("Host", .str "evil")])) "host" = none)
    ∧ (objGet (openaiMergeHeaders (openaiGetHeaders (openaiConfig envBoth) envBoth)
        (some [("host", .str "evil")])) "Host" = none
      ∧ objGet (openaiMergeHeaders (openaiGetHeaders (openaiConfig envBoth) envBoth)
        (some [("host", .str "evil")])) "host" = none) :=
  ⟨mergeHeaders_credential_policy.1 (anthropicConfig envBoth)
      (some [("X-Api-Key", .str "attacker"), ("AUTHORIZATION", .str "Bearer attacker")]),
   mergeHeaders_credential_policy.2.1 (openaiConfig envBoth) envBoth
      (some [("X-Api-Key", .str "attacker"), ("AUTHORIZATION", .str "Bearer attacker")]),
   mergeHeaders_credential_policy.2.2.1 (anthropicConfig envBoth)
      (some [("AUTHORIZATION", .str "Bearer attacker")]),
   mergeHeaders_credential_policy.2.2.2.1 (openaiConfig envBoth) envBoth
      (some [("X-Api-Key", .str "attacker")]),
   mergeHeaders_credential_policy.2.2.2.2.1 (anthropicGetHeaders (anthropicConfig envBoth))
      (some [("Host", .str "evil")]),
   mergeHeaders_credential_policy.2.2.2.2.2 (openaiGetHeaders (openaiConfig envBoth) envBoth)
      (some [("host", .str "evil")])⟩

/-! ## Claim C6 — fixed-window rate limiter -/

/-- Increments at times within the current window accumulate counts
without touching the reset time. -/
theorem rlIncrementSeq_in_window (key : String) (w : ℕ) :
    ∀ (ts : List ℕ) (st : RLStore) (c r : ℕ), st key = some ⟨c, r⟩ →
      (∀ t ∈ ts, t ≤ r) →
      (rlIncrementSeq st key w ts) key = some ⟨c + ts.length, r⟩ := by
  intro ts
  induction ts with
  | nil =>
    intro st c r hst _
    simpa [rlIncrementSeq] using hst
  | cons t rest ih =>
    intro st c r hst hts
    have hle : t ≤ r := hts t (List.mem_cons_self t rest)
    have hnot : ¬(t > r) := not_lt.mpr hle
    have hstep : rlIncrement st key w t = (c + 1, rlSet st key ⟨c + 1, r⟩) := by
      simp [rlIncrement, hst, hnot]
    have hkey : (rlSet st key ⟨c + 1, r⟩) key = some ⟨c + 1, r⟩ := by simp [rlSet]
    simp only [rlIncrementSeq, hstep]
    have hrec := ih (rlSet st key ⟨c + 1, r⟩) (c + 1) r hkey
      (fun u hu => hts u (List.mem_cons_of_mem _ hu))
    rw [hrec]
    have harith : c + 1 + rest.length = c + (t :: rest).length := by
      simp [List.length_cons]
      omega
    rw [harith]

/-- C6: fixed-window math.  N increments of a fresh key within one window
yield count N with an unchanged reset time; a check inside the window
reports `current = count+1` and `remaining = max 0 (limit - current)`; an
increment after the reset time restarts the window at count 1; admission
fails exactly when the post-increment count exceeds the limit; and the
composite N-requests scenario reports `remaining = max 0 (limit - N)`. -/
theorem rate_limiter_fixed_window :
    (∀ key w t0 rest (st : RLStore), st key = none → (∀ t ∈ rest, t ≤ t0 + w) →
      (rlIncrementSeq st key w (t0 :: rest)) key = some ⟨(t0 :: rest).length, t0 + w⟩)
    ∧ (∀ (st : RLStore) key w limit now c r, st key = some ⟨c, r⟩ → now ≤ r →
      (rateLimitCheck st key w limit now).current = c + 1
        ∧ (rateLimitCheck st key w limit now).remaining = max 0 ((limit : ℤ) - (c + 1))
        ∧ ((rateLimitCheck st key w limit now).allowed = true ↔ c + 1 ≤ limit))
    ∧ (∀ (st : RLStore) key w limit now,
        (st key = none ∨ ∃ e, st key = some e ∧ e.resetTime < now) →
      (rateLimitCheck st key w limit now).current = 1
        ∧ (rateLimitCheck st key w limit now).store key = some ⟨1, now + w⟩)
    ∧ (∀ (st : RLStore) key w limit now,
        (rateLimitCheck st key w limit now).allowed = false ↔
          limit < (rateLimitCheck st key w limit now).current)
    ∧ (∀ key w limit t0 rest tN, (∀ t ∈ rest, t ≤ t0 + w) → tN ≤ t0 + w →
        (rateLimitCheck (rlIncrementSeq rlEmpty key w (t0 :: rest)) key w limit tN).current
          = rest.length + 2
        ∧ (rateLimitCheck (rlIncrementSeq rlEmpty key w (t0 :: rest)) key w limit tN).remaining
          = max 0 ((limit : ℤ) - (rest.length + 2))) := by
  have hseq : ∀ key w t0 rest (st : RLStore), st key = none → (∀ t ∈ rest, t ≤ t0 + w) →
      (rlIncrementSeq st key w (t0 :: rest)) key = some ⟨(t0 :: rest).length, t0 + w⟩ := by
    intro key w t0 rest st hst hrest
    have hstep : rlIncrement st key w t0 = (1, rlSet st key ⟨1, t0 + w⟩) := by
      simp [rlIncrement, hst]
    have hkey : (rlSet st key ⟨1, t0 + w⟩) key = some ⟨1, t0 + w⟩ := by simp [rlSet]
    simp only [rlIncrementSeq, hstep]
    have hrec := rlIncrementSeq_in_window key w rest (rlSet st key ⟨1, t0 + w⟩) 1 (t0 + w)
      hkey hrest
    rw [hrec]
    simp [List.length_cons, Nat.add_comm]
  have hcheck : ∀ (st : RLStore) key w limit now c r, st key = some ⟨c, r⟩ → now ≤ r →
      (rateLimitCheck st key w limit now).current = c + 1
        ∧ (rateLimitCheck st key w limit now).remaining = max 0 ((limit : ℤ) - (c + 1))
        ∧ ((rateLimitCheck st key w limit now).allowed = true ↔ c + 1 ≤ limit) := by
    intro st key w limit now c r hst hle
    have hnot : ¬(now > r) := not_lt.mpr hle
    have hstep : rlIncrement st key w now = (c + 1, rlSet st key ⟨c + 1, r⟩) := by
      simp [rlIncrement, hst, hnot]
    refine ⟨by simp [rateLimitCheck, hstep], ?_, ?_⟩
    · simp [rateLimitCheck, hstep]
    · simp only [rateLimitCheck, hstep]
      constructor
      · intro h
        simp only [Bool.not_eq_true', decide_eq_false_iff_not, gt_iff_lt, not_lt] at h
        exact h
      · intro h
        simp only [Bool.not_eq_true', decide_eq_false_iff_not, gt_iff_lt, not_lt]
        exact h
  refine ⟨hseq, hcheck, ?_, ?_, ?_⟩
  · intro st key w limit now h
    have hstep : rlIncrement st key w now = (1, rlSet st key ⟨1, now + w⟩) := by
      rcases h with h | ⟨e, he, hlt⟩
      · simp [rlIncrement, h]
      · simp [rlIncrement, he, hlt]
    constructor
    · simp [rateLimitCheck, hstep]
    · simp [rateLimitCheck, hstep, rlSet]
  · intro st key w limit now
    simp only [rateLimitCheck]
    constructor
    · intro h
      simpa [Bool.not_eq_false] using h
    · intro h
      simpa [Bool.not_eq_false] using h
  · intro key w limit t0 rest tN hrest htN
    have hentry := hseq key w t0 rest rlEmpty rfl hrest
    have hfields := hcheck (rlIncrementSeq rlEmpty key w (t0 :: rest)) key w limit tN
      ((t0 :: rest).length) (t0 + w) hentry htN
    refine ⟨?_, ?_⟩
    · rw [hfields.1]
      simp [List.length_cons]
    · rw [hfields.2.1]
      congr 1

/-- C6 witness: the fixed-window conjuncts at concrete keys, times and
limits. -/
theorem rate_limiter_fixed_window_witness :
    (rlIncrementSeq rlEmpty "apikey:1" 60000 [100, 200, 300]) "apikey:1" = some ⟨3, 100 + 60000⟩
    ∧ ((rateLimitCheck (rlSet rlEmpty "apikey:1" ⟨2, 60100⟩) "apikey:1" 60000 5 400).current = 2 + 1
        ∧ (rateLimitCheck (rlSet rlEmpty "apikey:1" ⟨2, 60100⟩) "apikey:1" 60000 5 400).remaining
            = max 0 ((5 : ℤ) - (2 + 1))
        ∧ ((rateLimitCheck (rlSet rlEmpty "apikey:1" ⟨2, 60100⟩) "apikey:1" 60000 5 400).allowed = true
            ↔ 2 + 1 ≤ 5))
    ∧ ((rateLimitCheck (rlSet rlEmpty "tokens:1" ⟨7, 60100⟩) "tokens:1" 60000 5 70000).current = 1
        ∧ (rateLimitCheck (rlSet rlEmpty "tokens:1" ⟨7, 60100⟩) "tokens:1" 60000 5 70000).store
            "tokens:1" = some ⟨1, 70000 + 60000⟩)
    ∧ ((rateLimitCheck (rlSet rlEmpty "ip:9" ⟨3, 60100⟩) "ip:9" 60000 3 500).allowed = false
        ↔ 3 < (rateLimitCheck (rlSet rlEmpty "ip:9" ⟨3, 60100⟩) "ip:9" 60000 3 500).current)
    ∧ ((rateLimitCheck (rlIncrementSeq rlEmpty "apikey:2" 60000 [0, 10]) "apikey:2" 60000 5 20).current
          = 1 + 2
        ∧ (rateLimitCheck (rlIncrementSeq rlEmpty "apikey:2" 60000 [0, 10]) "apikey:2" 60000 5 20).remaining
          = max 0 ((5 : ℤ) - (1 + 2))) :=
  ⟨rate_limiter_fixed_window.1 "apikey:1" 60000 100 [200, 300] rlEmpty rfl (by decide),
   rate_limiter_fixed_window.2.1 (rlSet rlEmpty "apikey:1" ⟨2, 60100⟩) "apikey:1" 60000 5 400 2
     60100 (by simp [rlSet]) (by norm_num),
   rate_limiter_fixed_window.2.2.1 (rlSet rlEmpty "tokens:1" ⟨7, 60100⟩) "tokens:1" 60000 5 70000
     (Or.inr ⟨⟨7, 60100⟩, by simp [rlSet], by norm_num⟩),
   rate_limiter_fixed_window.2.2.2.1 (rlSet rlEmpty "ip:9" ⟨3, 60100⟩) "ip:9" 60000 3 500,
   rate_limiter_fixed_window.2.2.2.2 "apikey:2" 60000 5 0 [10] 20 (by decide) (by norm_num)⟩

/-! ## Claim C1 — orchestrator failure exits and usage-sink writes -/

/-- Zero token counts always cost zero. -/
theorem calculateCost_zero (p m : String) : calculateCost p m 0 0 = 0 := by
  simp [calculateCost]

/-- Evaluation helper: the word count of the fixture message. -/
theorem jsSplitWsCount_hi : (jsSplitWsCount "hi" : ℚ) = 1 := by
  have h : jsSplitWsCount "hi" = 1 := rfl
  rw [h]
  norm_num

/-- Evaluation helper: the OpenAI estimate of the fixture request. -/
theorem openaiEstimateTokens_simpleReq10 : openaiEstimateTokens (simpleReq (some 10)) = 19 := by
  have hc : (⌈(3 : ℚ) / 4⌉ : ℤ) = 1 := by
    rw [Int.ceil_eq_iff]
    norm_num
  norm_num [openaiEstimateTokens, openaiMessageTokens, simpleReq, truthyStr, truthyNum,
    wordTokens, jsSplitWsCount_hi, jsCeil, hc]

/-- Evaluation helper: the fixture request with 0 credits fails the
pre-dispatch credit check. -/
theorem chatPreDispatch_simpleReq_insufficient :
    chatPreDispatch envOpenAI (simpleReq (some 10)) 0 = .error "Insufficient credits" := by
  have hval : chatValidateRequest envOpenAI (simpleReq (some 10)) = .ok () := rfl
  have hmodel : (if truthyStr (simpleReq (some 10)).model then
      Except.ok ((simpleReq (some 10)).model.getD "")
    else chatGetDefaultModel envOpenAI) = (.ok "gpt-3.5-turbo" : Except String String) := rfl
  have hfac : factoryGetProviderForModel envOpenAI "gpt-3.5-turbo" = .ok "openai" := rfl
  have hpet : providerEstimateTokens "openai" (simpleReq (some 10)) = 19 := by
    simp [providerEstimateTokens, openaiEstimateTokens_simpleReq10]
  have hcfg : configGetProviderForModel "gpt-3.5-turbo" = "openai" := rfl
  unfold chatPreDispatch
  simp only [hval, hmodel, hfac, hpet, hcfg]
  have hcost : calculateCost "openai" "gpt-3.5-turbo"
      ((Int.floor ((19 : ℚ) * 0.7) : ℤ) : ℚ) ((Int.floor ((19 : ℚ) * 0.3) : ℤ) : ℚ)
      = 59 / 2000000 := by
    have hp : getModelPricing "openai" "gpt-3.5-turbo" = ⟨0.0015, 0.002⟩ := rfl
    simp only [calculateCost, hp]
    norm_num
  rw [hcost]
  norm_num

/-- Evaluation helper: the fixture request with 1 credit passes the
pre-dispatch pipeline. -/
theorem chatPreDispatch_simpleReq_ok :
    chatPreDispatch envOpenAI (simpleReq (some 10)) 1 =
      .ok ⟨"gpt-3.5-turbo", "openai", 19, 59 / 2000000⟩ := by
  have hval : chatValidateRequest envOpenAI (simpleReq (some 10)) = .ok () := rfl
  have hmodel : (if truthyStr (simpleReq (some 10)).model then
      Except.ok ((simpleReq (some 10)).model.getD "")
    else chatGetDefaultModel envOpenAI) = (.ok "gpt-3.5-turbo" : Except String String) := rfl
  have hfac : factoryGetProviderForModel envOpenAI "gpt-3.5-turbo" = .ok "openai" := rfl
  have hpet : providerEstimateTokens "openai" (simpleReq (some 10)) = 19 := by
    simp [providerEstimateTokens, openaiEstimateTokens_simpleReq10]
  have hcfg : configGetProviderForModel "gpt-3.5-turbo" = "openai" := rfl
  unfold chatPreDispatch
  simp only [hval, hmodel, hfac, hpet, hcfg]
  have hcost : calculateCost "openai" "gpt-3.5-turbo"
      ((Int.floor ((19 : ℚ) * 0.7) : ℤ) : ℚ) ((Int.floor ((19 : ℚ) * 0.3) : ℤ) : ℚ)
      = 59 / 2000000 := by
    have hp : getModelPricing "openai" "gpt-3.5-turbo" = ⟨0.0015, 0.002⟩ := rfl
    simp only [calculateCost, hp]
    norm_num
  rw [hcost]
  norm_num

/-- C1 (amended): every pre-dispatch failure (validation, model/provider
resolution, or the credit-balance check) fails with the corresponding
error BEFORE any upstream call, but the catch-all still writes exactly one
zero-token, zero-cost failed record to the usage sink — the same kind of
record a dispatch failure writes. -/
theorem createCompletion_failure_usage :
    (∀ e req (credits : ℚ) uid kid dispatch er,
      chatPreDispatch e req credits = .error er →
        (createCompletion e req credits uid kid dispatch).result = .error er
        ∧ (createCompletion e req credits uid kid dispatch).upstreamCalled = false
        ∧ (createCompletion e req credits uid kid dispatch).usageWrites =
            [logUsage (failedUsageRecord req uid kid er)])
    ∧ (∀ req uid kid er,
        (logUsage (failedUsageRecord req uid kid er)).cost = 0
        ∧ (logUsage (failedUsageRecord req uid kid er)).success = false
        ∧ (logUsage (failedUsageRecord req uid kid er)).promptTokens = 0
        ∧ (logUsage (failedUsageRecord req uid kid er)).completionTokens = 0
        ∧ (logUsage (failedUsageRecord req uid kid er)).totalTokens = 0)
    ∧ (∀ e req (credits : ℚ) uid kid er pre,
        chatPreDispatch e req credits = .ok pre →
        (createCompletion e req credits uid kid (.error er)).result = .error er
        ∧ (createCompletion e req credits uid kid (.error er)).upstreamCalled = true
        ∧ (createCompletion e req credits uid kid (.error er)).usageWrites =
            [logUsage (failedUsageRecord req uid kid er)]) := by
  refine ⟨?_, ?_, ?_⟩
  · intro e req credits uid kid dispatch er h
    unfold createCompletion
    simp [h]
  · intro req uid kid er
    unfold logUsage failedUsageRecord
    simp [calculateCost_zero]
  · intro e req credits uid kid er pre h
    unfold createCompletion
    simp [h]

/-- C1 counterexample: with balance 0 and positive estimated cost the
request short-circuits before dispatch with a typed error, yet the usage
sink receives ONE zero-cost failed record instead of the zero writes the
claim requires. -/
theorem createCompletion_precheck_writes_counterexample :
    (createCompletion envOpenAI (simpleReq (some 10)) 0 "user-1" "key-1"
        (.error "unreachable")).upstreamCalled = false
    ∧ (createCompletion envOpenAI (simpleReq (some 10)) 0 "user-1" "key-1"
        (.error "unreachable")).result = .error "Insufficient credits"
    ∧ (createCompletion envOpenAI (simpleReq (some 10)) 0 "user-1" "key-1"
        (.error "unreachable")).usageWrites.map
          (fun r => (r.promptTokens, r.completionTokens, r.cost, r.success))
        = [(0, 0, 0, false)]
    ∧ (createCompletion envOpenAI (simpleReq (some 10)) 0 "user-1" "key-1"
        (.error "unreachable")).usageWrites ≠ [] := by
  have h := chatPreDispatch_simpleReq_insufficient
  refine ⟨?_, ?_, ?_, ?_⟩
  · simp only [createCompletion, h]
  · simp only [createCompletion, h]
  · simp only [createCompletion, h, List.map_cons, List.map_nil]
    simp [logUsage, failedUsageRecord, simpleReq, truthyStr, calculateCost_zero]
  · simp only [createCompletion, h]
    simp

/-- C1 witness: the amended behaviour at concrete inputs — a failing
credit check writes one failed record without dispatch, and a dispatch
failure after a passing pre-check writes the same kind of record. -/
theorem createCompletion_failure_usage_witness :
    ((createCompletion envOpenAI (simpleReq (some 10)) 0 "user-1" "key-1"
        (.error "n/a")).result = .error "Insufficient credits"
      ∧ (createCompletion envOpenAI (simpleReq (some 10)) 0 "user-1" "key-1"
        (.error "n/a")).upstreamCalled = false
      ∧ (createCompletion envOpenAI (simpleReq (some 10)) 0 "user-1" "key-1"
        (.error "n/a")).usageWrites =
          [logUsage (failedUsageRecord (simpleReq (some 10)) "user-1" "key-1"
            "Insufficient credits")])
    ∧ ((logUsage (failedUsageRecord (simpleReq (some 10)) "user-1" "key-1"
        "Insufficient credits")).cost = 0
      ∧ (logUsage (failedUsageRecord (simpleReq (some 10)) "user-1" "key-1"
        "Insufficient credits")).success = false
      ∧ (logUsage (failedUsageRecord (simpleReq (some 10)) "user-1" "key-1"
        "Insufficient credits")).promptTokens = 0
      ∧ (logUsage (failedUsageRecord (simpleReq (some 10)) "user-1" "key-1"
        "Insufficient credits")).completionTokens = 0
      ∧ (logUsage (failedUsageRecord (simpleReq (some 10)) "user-1" "key-1"
        "Insufficient credits")).totalTokens = 0)
    ∧ ((createCompletion envOpenAI (simpleReq (some 10)) 1 "user-1" "key-1"
        (.error "ECONNRESET")).result = .error "ECONNRESET"
      ∧ (createCompletion envOpenAI (simpleReq (some 10)) 1 "user-1" "key-1"
        (.error "ECONNRESET")).upstreamCalled = true
      ∧ (createCompletion envOpenAI (simpleReq (some 10)) 1 "user-1" "key-1"
        (.error "ECONNRESET")).usageWrites =
          [logUsage (failedUsageRecord (simpleReq (some 10)) "user-1" "key-1" "ECONNRESET")]) :=
  ⟨createCompletion_failure_usage.1 envOpenAI (simpleReq (some 10)) 0 "user-1" "key-1"
      (.error "n/a") "Insufficient credits" chatPreDispatch_simpleReq_insufficient,
   createCompletion_failure_usage.2.1 (simpleReq (some 10)) "user-1" "key-1"
      "Insufficient credits",
   createCompletion_failure_usage.2.2 envOpenAI (simpleReq (some 10)) 1 "user-1" "key-1"
      "ECONNRESET" ⟨"gpt-3.5-turbo", "openai", 19, 59 / 2000000⟩ chatPreDispatch_simpleReq_ok⟩

end OpenAIRouter
